import Mathlib

/-!
# Spatial Explorer parsers — shallow embedding and verification

This file embeds the format-detection and schema-normalization core of the
spatial-explorer repository (src/parsers/{cosmx,merscope,visium,visium_hd,
xenium,universal}.py) into Lean and proves properties of the embedded code.

Modelling conventions (spec §1 declares byte-level file reading out of scope):
* a CSV/parquet file that has been read is a `Table` (column names + rows);
* a pandas scalar is a `Val`: missing (`na`, i.e. NaN/pd.NA), a number
  (modelled as `ℚ`), or a string;
* `pd.to_numeric(errors="coerce")`, `.astype(str)` and `.astype("string")`
  are modelled elementwise on `Val`;
* fallible loaders return `Except Err _` where every `Err` constructor
  corresponds to one `raise ValueError(...)` site in the source.
-/

namespace SE

/-- A scalar table value: missing (NaN/NA), a number, or a string. -/
inductive Val where
  | na : Val
  | num (q : ℚ) : Val
  | str (s : String) : Val
deriving DecidableEq, Repr

/-- A parsed rectangular table (result of `pd.read_csv` and friends):
column names plus a list of rows. -/
structure Table where
  cols : List String
  rows : List (List Val)
deriving DecidableEq, Repr

/-- A pandas DataFrame carrying an index (the shape loaders return):
index name, index values, column labels, and the value grid. -/
structure Frame where
  indexName : Option String
  index : List Val
  cols : List Val
  rows : List (List Val)
deriving DecidableEq, Repr

/-- The empty `pd.DataFrame()`. -/
def Frame.empty : Frame := ⟨none, [], [], []⟩

/-- ASCII lowercasing of one character (Python `str.lower` restricted to
ASCII, which covers every name the parsers compare). -/
def lowerChar (c : Char) : Char :=
  if 'A' ≤ c && c ≤ 'Z' then Char.ofNat (c.toNat + 32) else c

/-- `str.lower()`. -/
def pyLower (s : String) : String := ⟨s.data.map lowerChar⟩

/-- Whitespace for `str.strip()`. -/
def isPyWS (c : Char) : Bool := c = ' ' || c = '\t' || c = '\n' || c = '\r'

/-- `str.strip()`: drop surrounding whitespace. -/
def pyStrip (s : String) : String :=
  ⟨((s.data.dropWhile isPyWS).reverse.dropWhile isPyWS).reverse⟩

/-- The `str(c).strip().lower()` normalization used on column names. -/
def normName (s : String) : String := pyLower (pyStrip s)

/-- Substring containment, `needle in hay` on Python strings. -/
def listHasSub : List Char → List Char → Bool
  | hay, needle =>
    needle.isPrefixOf hay ||
      match hay with
      | [] => false
      | _ :: t => listHasSub t needle

def strContains (hay needle : String) : Bool :=
  listHasSub hay.data needle.data

/-- `hay.endswith(suffix)`. -/
def strEndsWith (hay suffix : String) : Bool :=
  suffix.data.isSuffixOf hay.data

/-- `hay.startswith(p)`. -/
def strStartsWith (hay p : String) : Bool :=
  p.data.isPrefixOf hay.data

/-- Value of digit characters read as a base-10 natural. -/
def digitsToNat (cs : List Char) : Nat :=
  cs.foldl (fun a c => a * 10 + (c.toNat - 48)) 0

/-- Numeric parsing of a string as done by `pd.to_numeric` /`float()`:
optional sign, integer digits, optional fractional digits; surrounding
whitespace ignored.  (Scientific notation is not needed by any claim and
is not modelled.) -/
def parseNumQ (s : String) : Option ℚ :=
  let cs := (pyStrip s).data
  let signed : Int × List Char :=
    match cs with
    | '-' :: r => (-1, r)
    | '+' :: r => (1, r)
    | r => (1, r)
  let body := signed.2
  let intPart := body.takeWhile Char.isDigit
  let rest := body.dropWhile Char.isDigit
  match rest with
  | [] =>
      if intPart.isEmpty then none
      else some (mkRat (signed.1 * (digitsToNat intPart : Int)) 1)
  | '.' :: frac =>
      if frac.all Char.isDigit && (!intPart.isEmpty || !frac.isEmpty) then
        some (mkRat
          (signed.1 * ((digitsToNat intPart : Int)
              * ((10 ^ frac.length : Nat) : Int)
            + (digitsToNat frac : Int)))
          (10 ^ frac.length))
      else none
  | _ => none

/-- Exact rational addition through `mkRat` (the library `Rat.add` is
`@[irreducible]`, which would block evaluation on concrete witnesses;
this computes the same normalized rational). -/
def qAdd (a b : ℚ) : ℚ :=
  mkRat (a.num * (b.den : Int) + b.num * (a.den : Int)) (a.den * b.den)

/-- Printable form of a number.  Integers print like Python ints; no claim
depends on the exact decimal rendering of non-integers. -/
def ratRepr (q : ℚ) : String :=
  if q.den = 1 then toString q.num else toString q.num ++ "/" ++ toString q.den

/-- `str(v)` for a scalar: Python renders a float NaN as the string "nan". -/
def valPyStr : Val → String
  | .na => "nan"
  | .num q => ratRepr q
  | .str s => s

/-- `.astype(str)` elementwise: every value (NaN included) becomes a string. -/
def astypePyStr (v : Val) : Val := .str (valPyStr v)

/-- `.astype("string")` elementwise: missing values stay missing, other
values are stringified. -/
def astypeString : Val → Val
  | .na => .na
  | .num q => .str (ratRepr q)
  | .str s => .str s

/-- `pd.to_numeric(errors="coerce")` elementwise: non-numeric becomes NA. -/
def toNumeric : Val → Val
  | .na => .na
  | .num q => .num q
  | .str s =>
      match parseNumQ s with
      | some q => .num q
      | none => .na

/-- Is this value missing (`isna`)? -/
def Val.isna : Val → Bool
  | .na => true
  | _ => false

/-- `_standardize_columns`: `str(c).strip()` applied to each column name. -/
def standardizeCols (t : Table) : Table :=
  { t with cols := t.cols.map pyStrip }

/-- Column access `df[c]`: values of the first column named `c`
(rows shorter than the header read as missing). -/
def Table.col (t : Table) (c : String) : List Val :=
  match t.cols.findIdx? (fun n => n == c) with
  | some i => t.rows.map (fun r => r.getD i .na)
  | none => []

/-- Number of rows, `len(df)`. -/
def Table.nrows (t : Table) : Nat := t.rows.length

/-- `_lower_map_columns`: build lowercase-trimmed-name → original-name map,
first occurrence wins for duplicate lowered names. -/
def lowerMapColumns (cols : List String) : List (String × String) :=
  cols.foldl
    (fun m c =>
      let l := normName c
      if (m.find? (fun p => p.1 == l)).isSome then m else m ++ [(l, c)])
    []

/-- Association-list lookup used on the lowered-name map. -/
def mapLookup (m : List (String × String)) (k : String) : Option String :=
  (m.find? (fun p => p.1 == k)).map Prod.snd

/-- `_first_present`: first candidate alias present in the lowered map. -/
def firstPresent (m : List (String × String)) (candidates : List String) :
    Option String :=
  candidates.findSome? (fun c => mapLookup m c)

/-- Resolving one alias directly against the column list: the first column
whose trimmed-lowered name equals the alias. -/
def resolveAlias (cols : List String) (a : String) : Option String :=
  cols.find? (fun c => normName c == a)

theorem mapLookup_append (m m' : List (String × String)) (k : String) :
    mapLookup (m ++ m') k =
      match mapLookup m k with
      | some v => some v
      | none => mapLookup m' k := by
  induction m with
  | nil => simp [mapLookup]
  | cons p ps ih =>
      by_cases h : p.1 = k
      · simp [mapLookup, h]
      · have hb : (p.1 == k) = false := by
          simp [h]
        simpa [mapLookup, List.find?, hb] using ih

theorem mapLookup_build (cols : List String) (m : List (String × String))
    (k : String) :
    mapLookup
        (cols.foldl
          (fun m c =>
            let l := normName c
            if (m.find? (fun p => p.1 == l)).isSome then m else m ++ [(l, c)])
          m) k =
      match mapLookup m k with
      | some v => some v
      | none => resolveAlias cols k := by
  induction cols generalizing m with
  | nil =>
      cases h : mapLookup m k <;> simp [resolveAlias, List.foldl, h]
  | cons c cs ih =>
      simp only [List.foldl]
      by_cases hck : normName c = k
      · -- the head column's lowered name is exactly the key
        subst hck
        by_cases hm : (m.find? (fun p => p.1 == normName c)).isSome
        · -- key already bound in the accumulator: map unchanged
          rw [if_pos hm, ih]
          rcases h : mapLookup m (normName c) with _ | v
          · exfalso
            rcases Option.isSome_iff_exists.mp hm with ⟨p, hp⟩
            have : mapLookup m (normName c) = some p.2 := by
              simp [mapLookup, hp]
            simp [h] at this
          · simp
        · -- key appended now; later occurrences cannot override it
          rw [if_neg hm, ih]
          have hmk : mapLookup m (normName c) = none := by
            unfold mapLookup
            rcases h : m.find? (fun p => p.1 == normName c) with _ | p
            · simp [h]
            · exact absurd (by simp [h]) hm
          rw [mapLookup_append, hmk]
          simp [mapLookup, resolveAlias]
      · -- head column does not match the key
        have hb : (normName c == k) = false := by simp [hck]
        by_cases hm : (m.find? (fun p => p.1 == normName c)).isSome
        · rw [if_pos hm, ih]
          simp [resolveAlias, List.find?, hb]
        · rw [if_neg hm, ih, mapLookup_append]
          have : mapLookup [(normName c, c)] k = none := by
            simp [mapLookup, List.find?, hb]
          rw [this]
          cases h : mapLookup m k <;> simp [resolveAlias, List.find?, hb]

theorem mapLookup_lowerMap (cols : List String) (k : String) :
    mapLookup (lowerMapColumns cols) k = resolveAlias cols k := by
  have := mapLookup_build cols [] k
  simpa [lowerMapColumns, mapLookup] using this

/-- C4. The column resolver is alias-priority-ordered, not table-ordered:
resolving through the first-occurrence-wins lowered-name map is the same as
scanning the aliases in priority order and, for each, taking the first
column whose trimmed-lowercased name equals the alias; in particular with
aliases ["a","b"] against a table with columns "b" then "a" it returns "a". -/
theorem C4_resolver_alias_priority :
    (∀ (cols aliases : List String),
      firstPresent (lowerMapColumns cols) aliases
        = aliases.findSome? (fun a => resolveAlias cols a))
    ∧ firstPresent (lowerMapColumns ["b", "a"]) ["a", "b"] = some "a" := by
  constructor
  · intro cols aliases
    unfold firstPresent
    induction aliases with
    | nil => rfl
    | cons a as ih =>
        simp only [List.findSome?]
        rw [mapLookup_lowerMap]
        cases h : resolveAlias cols a <;> simp [h, ih]
  · decide

/-! ## Visium HD root discovery (`visium_hd.py::_discover_visium_root`) -/

namespace VisiumHd

/-- Leftmost match of the regex `(\d+)(?:\s*)um`: scan positions left to
right; at a digit, take the maximal digit run, skip whitespace, and require
the literal "um".  (If a run fails, every start inside the run fails for
the same reason, so advancing one character reproduces `re.search`.) -/
def umScan : List Char → Option Nat
  | [] => none
  | c :: rest =>
      if c.isDigit then
        let run := (c :: rest).takeWhile Char.isDigit
        let after := (c :: rest).dropWhile Char.isDigit
        if strStartsWith ⟨after.dropWhile isPyWS⟩ "um" then
          some (digitsToNat run)
        else umScan rest
      else umScan rest

/-- Leftmost digit run of a name, the `re.search(r"(\d+)", p.name)`
fallback. -/
def firstDigitRun : List Char → Option Nat
  | [] => none
  | c :: rest =>
      if c.isDigit then some (digitsToNat ((c :: rest).takeWhile Char.isDigit))
      else firstDigitRun rest

/-- `bin_size_um`: micron size encoded in a bin directory name (digits
before "um" in the lowered name, else any embedded integer). -/
def bin_size_um (name : String) : Option Nat :=
  match umScan (pyLower name).data with
  | some n => some n
  | none => firstDigitRun name.data

/-- First element attaining the minimal score — the head of the stable
sort by score that the source performs (`scored.sort(key=score)`;
`scored[0]`). -/
def pickMinScored (l : List (Nat × String)) : Option (Nat × String) :=
  l.foldl
    (fun acc p =>
      match acc with
      | none => some p
      | some q => if p.1 < q.1 then some p else some q)
    none

/-- Lexicographically smallest name — the head of `unscored.sort(key=name)`. -/
def pickMinName (l : List String) : Option String :=
  l.foldl
    (fun acc n =>
      match acc with
      | none => some n
      | some m => if n < m then some n else some m)
    none

/-- `_discover_visium_root`, restricted to its bin-choice logic: given the
subdirectory names of `binned_outputs/` in directory order, the chosen bin
name (`none` when there are no bins, in which case the adapter keeps the
base directory as root). -/
def discover_visium_root (bins : List String) : Option String :=
  match pickMinScored
      (bins.filterMap (fun b => (bin_size_um b).map (fun s => (s, b)))) with
  | some p => some p.2
  | none => pickMinName (bins.filter (fun b => (bin_size_um b).isNone))

theorem pickMinScored_go (l : List (Nat × String)) (q : Nat × String) :
    ∃ p, l.foldl
        (fun acc p =>
          match acc with
          | none => some p
          | some q => if p.1 < q.1 then some p else some q)
        (some q) = some p
      ∧ (p ∈ l ∨ p = q) ∧ p.1 ≤ q.1 ∧ ∀ r ∈ l, p.1 ≤ r.1 := by
  induction l generalizing q with
  | nil => exact ⟨q, rfl, Or.inr rfl, le_refl _, by simp⟩
  | cons a l ih =>
      simp only [List.foldl]
      by_cases h : a.1 < q.1
      · rw [if_pos h]
        obtain ⟨p, hfold, hmem, hle, hall⟩ := ih a
        refine ⟨p, hfold, ?_, le_of_lt (lt_of_le_of_lt hle h), ?_⟩
        · rcases hmem with h' | h'
          · exact Or.inl (List.mem_cons_of_mem _ h')
          · exact Or.inl (h' ▸ List.mem_cons_self _ _)
        · intro r hr
          rcases List.mem_cons.mp hr with rfl | hr'
          · exact hle
          · exact hall r hr'
      · rw [if_neg h]
        obtain ⟨p, hfold, hmem, hle, hall⟩ := ih q
        refine ⟨p, hfold, ?_, hle, ?_⟩
        · rcases hmem with h' | h'
          · exact Or.inl (List.mem_cons_of_mem _ h')
          · exact Or.inr h'
        · intro r hr
          rcases List.mem_cons.mp hr with rfl | hr'
          · exact le_trans hle (le_of_not_lt h)
          · exact hall r hr'

theorem pickMinScored_spec (l : List (Nat × String)) (hne : l ≠ []) :
    ∃ p, pickMinScored l = some p ∧ p ∈ l ∧ ∀ r ∈ l, p.1 ≤ r.1 := by
  cases l with
  | nil => exact absurd rfl hne
  | cons a l =>
      obtain ⟨p, hfold, hmem, hle, hall⟩ := pickMinScored_go l a
      refine ⟨p, ?_, ?_, ?_⟩
      · simpa [pickMinScored, List.foldl] using hfold
      · rcases hmem with h | h
        · exact List.mem_cons_of_mem _ h
        · exact h ▸ List.mem_cons_self _ _
      · intro r hr
        rcases List.mem_cons.mp hr with rfl | hr'
        · exact hle
        · exact hall r hr'

theorem pickMinScored_nil_of_none (l : List (Nat × String))
    (h : pickMinScored l = none) : l = [] := by
  cases l with
  | nil => rfl
  | cons a l =>
      obtain ⟨p, hfold, -⟩ := pickMinScored_go l a
      have : pickMinScored (a :: l) = some p := by
        simpa [pickMinScored, List.foldl] using hfold
      rw [h] at this
      exact absurd this (by simp)

theorem pickMinName_go (l : List String) (q : String) :
    ∃ p, l.foldl
        (fun acc n =>
          match acc with
          | none => some n
          | some m => if n < m then some n else some m)
        (some q) = some p
      ∧ (p ∈ l ∨ p = q) ∧ p ≤ q ∧ ∀ r ∈ l, p ≤ r := by
  induction l generalizing q with
  | nil => exact ⟨q, rfl, Or.inr rfl, le_refl _, by simp⟩
  | cons a l ih =>
      simp only [List.foldl]
      by_cases h : a < q
      · rw [if_pos h]
        obtain ⟨p, hfold, hmem, hle, hall⟩ := ih a
        refine ⟨p, hfold, ?_, le_of_lt (lt_of_le_of_lt hle h), ?_⟩
        · rcases hmem with h' | h'
          · exact Or.inl (List.mem_cons_of_mem _ h')
          · exact Or.inl (h' ▸ List.mem_cons_self _ _)
        · intro r hr
          rcases List.mem_cons.mp hr with rfl | hr'
          · exact hle
          · exact hall r hr'
      · rw [if_neg h]
        obtain ⟨p, hfold, hmem, hle, hall⟩ := ih q
        refine ⟨p, hfold, ?_, hle, ?_⟩
        · rcases hmem with h' | h'
          · exact Or.inl (List.mem_cons_of_mem _ h')
          · exact Or.inr h'
        · intro r hr
          rcases List.mem_cons.mp hr with rfl | hr'
          · exact le_trans hle (le_of_not_lt h)
          · exact hall r hr'

theorem pickMinName_spec (l : List String) (hne : l ≠ []) :
    ∃ p, pickMinName l = some p ∧ p ∈ l ∧ ∀ r ∈ l, p ≤ r := by
  cases l with
  | nil => exact absurd rfl hne
  | cons a l =>
      obtain ⟨p, hfold, hmem, hle, hall⟩ := pickMinName_go l a
      refine ⟨p, ?_, ?_, ?_⟩
      · simpa [pickMinName, List.foldl] using hfold
      · rcases hmem with h | h
        · exact List.mem_cons_of_mem _ h
        · exact h ▸ List.mem_cons_self _ _
      · intro r hr
        rcases List.mem_cons.mp hr with rfl | hr'
        · exact hle
        · exact hall r hr'

end VisiumHd

/-- C6.  Visium-HD root selection picks the bin subdirectory with the
smallest encoded micron size (digits before "um", else any embedded
integer); when no subdirectory name yields a number it picks the
lexicographically smallest name; in particular square_002um beats
square_008um in either directory order. -/
theorem C6_visium_hd_smallest_bin :
    (∀ bins : List String, bins ≠ [] →
      ∃ chosen, VisiumHd.discover_visium_root bins = some chosen
        ∧ chosen ∈ bins
        ∧ ((∃ s, VisiumHd.bin_size_um chosen = some s
              ∧ ∀ b ∈ bins, ∀ sb, VisiumHd.bin_size_um b = some sb → s ≤ sb)
          ∨ (VisiumHd.bin_size_um chosen = none
              ∧ (∀ b ∈ bins, VisiumHd.bin_size_um b = none)
              ∧ ∀ b ∈ bins, chosen ≤ b)))
    ∧ VisiumHd.discover_visium_root ["square_008um", "square_002um"]
        = some "square_002um"
    ∧ VisiumHd.discover_visium_root ["square_002um", "square_008um"]
        = some "square_002um" := by
  refine ⟨?_, by decide, by decide⟩
  intro bins hne
  unfold VisiumHd.discover_visium_root
  rcases hpick : VisiumHd.pickMinScored
      (bins.filterMap
        (fun b => (VisiumHd.bin_size_um b).map (fun s => (s, b)))) with _ | p
  · -- nothing scored: every bin fails to parse; lexicographic minimum wins
    have hemp := VisiumHd.pickMinScored_nil_of_none _ hpick
    have hallnone : ∀ b ∈ bins, VisiumHd.bin_size_um b = none := by
      intro b hb
      rcases h : VisiumHd.bin_size_um b with _ | s
      · rfl
      · exfalso
        have : (s, b) ∈ bins.filterMap
            (fun b => (VisiumHd.bin_size_um b).map (fun s => (s, b))) := by
          rw [List.mem_filterMap]
          exact ⟨b, hb, by rw [h]; rfl⟩
        rw [hemp] at this
        exact absurd this (by simp)
    have hfe : bins.filter (fun b => (VisiumHd.bin_size_um b).isNone) = bins := by
      apply List.filter_eq_self.mpr
      intro b hb
      simp [hallnone b hb]
    obtain ⟨p, hp, hmem, hall⟩ := VisiumHd.pickMinName_spec
        (bins.filter (fun b => (VisiumHd.bin_size_um b).isNone))
        (by rw [hfe]; exact hne)
    rw [hfe] at hmem hall
    refine ⟨p, hp, hmem, Or.inr ⟨hallnone p hmem, hallnone, hall⟩⟩
  · -- at least one bin scored: the first minimal-score bin is chosen
    have hspec := VisiumHd.pickMinScored_spec
        (bins.filterMap
          (fun b => (VisiumHd.bin_size_um b).map (fun s => (s, b))))
        (by
          intro h
          rw [h] at hpick
          exact Option.noConfusion hpick)
    obtain ⟨p', hp', hmem, hall⟩ := hspec
    rw [hpick] at hp'
    cases hp'
    rw [List.mem_filterMap] at hmem
    obtain ⟨b, hb, hbe⟩ := hmem
    rcases h : VisiumHd.bin_size_um b with _ | s
    · rw [h] at hbe; exact absurd hbe (by simp)
    · rw [h] at hbe
      simp only [Option.map] at hbe
      cases hbe
      refine ⟨b, rfl, hb, Or.inl ⟨s, h, ?_⟩⟩
      intro b' hb' sb hsb
      have : (sb, b') ∈ bins.filterMap
          (fun b => (VisiumHd.bin_size_um b).map (fun s => (s, b))) := by
        rw [List.mem_filterMap]
        exact ⟨b', hb', by rw [hsb]; rfl⟩
      exact hall _ this

/-- Witness for C6: instantiating the universal part on a concrete bin
list. -/
theorem C6_visium_hd_smallest_bin_witness :
    ∃ chosen,
      VisiumHd.discover_visium_root ["square_008um", "square_002um"]
          = some chosen
        ∧ chosen ∈ ["square_008um", "square_002um"]
        ∧ ((∃ s, VisiumHd.bin_size_um chosen = some s
              ∧ ∀ b ∈ ["square_008um", "square_002um"],
                  ∀ sb, VisiumHd.bin_size_um b = some sb → s ≤ sb)
          ∨ (VisiumHd.bin_size_um chosen = none
              ∧ (∀ b ∈ ["square_008um", "square_002um"],
                  VisiumHd.bin_size_um b = none)
              ∧ ∀ b ∈ ["square_008um", "square_002um"], chosen ≤ b)) :=
  C6_visium_hd_smallest_bin.1 ["square_008um", "square_002um"] (by decide)

/-! ## Universal detector (`universal.py::detect_spatial_format`)

The filesystem is modelled as a tree of named nodes; reading directory
entries (`iterdir`) is listing a node's children.  Python's
`{c.name.lower() for c in p.iterdir()}` membership tests become membership
tests on the lowered name list. -/

namespace Universal

/-- A filesystem object: a plain file or a directory with children. -/
inductive FSNode where
  | file (name : String)
  | dir (name : String) (children : List FSNode)

def FSNode.name : FSNode → String
  | .file n => n
  | .dir n _ => n

def FSNode.isDir : FSNode → Bool
  | .file _ => false
  | .dir _ _ => true

/-- Child node of an exact (case-sensitive) name, i.e. `(p / name).exists()`
plus access to the child. -/
def lookupChild (children : List FSNode) (name : String) : Option FSNode :=
  children.find? (fun c => c.name == name)

/-- `_dirnames`: lowered child names of a directory; the `try/except`
yields the empty set for a non-directory. -/
def dirnames : FSNode → List String
  | .file _ => []
  | .dir _ children => children.map (fun c => pyLower c.name)

/-- Split a character list at '.' separators. -/
def splitOnDot : List Char → List (List Char)
  | [] => [[]]
  | c :: rest =>
      let r := splitOnDot rest
      if c = '.' then [] :: r
      else
        match r with
        | h :: t => (c :: h) :: t
        | [] => [[c]]

/-- `"".join(p.suffixes)`: the dot-separated suffixes of a file name
(leading dots of a hidden file are not suffix separators). -/
def suffixesJoin (name : String) : String :=
  let core := name.data.dropWhile (fun c => c = '.')
  match splitOnDot core with
  | [] => ""
  | _ :: rest => ⟨rest.foldr (fun part acc => '.' :: (part ++ acc)) []⟩

/-- `_is_tabular_file`. -/
def is_tabular_file (name : String) : Bool :=
  [".csv", ".tsv", ".txt", ".csv.gz", ".tsv.gz", ".txt.gz"].contains
    (pyLower (suffixesJoin name))

/-- The fixed MERSCOPE signature filename set. -/
def merscope_signature : List String :=
  ["detected_transcripts.csv", "detected_transcripts.parquet",
   "cell_by_gene.csv", "cell_by_gene.parquet",
   "entity_by_gene.csv", "entity_by_gene.parquet"]

/-- `_merscope_in_dir`: strong signature match, else the
detected_transcripts*+*_by_gene* pair, else the weak single-artifact
match. -/
def merscope_in_dir (d : FSNode) (label : String) : Option (String × String) :=
  if (dirnames d).any (fun n => merscope_signature.contains n) then
    some ("merscope", "matched MERSCOPE signature in " ++ label)
  else if (dirnames d).any (fun n => strContains n "detected_transcripts")
      && (dirnames d).any (fun n =>
          strContains n "cell_by_gene" || strContains n "entity_by_gene") then
    some ("merscope",
      "found detected_transcripts* and cell_by_gene*/entity_by_gene* in "
        ++ label)
  else if ((dirnames d).any (fun n => strContains n "detected_transcripts")
        || (dirnames d).any (fun n =>
            strContains n "cell_by_gene" || strContains n "entity_by_gene"))
      && (dirnames d).any (fun n =>
          strEndsWith n ".csv" || strEndsWith n ".csv.gz"
            || strEndsWith n ".parquet") then
    some ("merscope", "weak MERSCOPE match in " ++ label)
  else none

/-- Insertion into a name-sorted node list. -/
def insertByName (x : FSNode) : List FSNode → List FSNode
  | [] => [x]
  | y :: ys => if x.name ≤ y.name then x :: y :: ys else y :: insertByName x ys

/-- `sorted(p.iterdir())` (paths under one parent sort by name). -/
def sortByName (l : List FSNode) : List FSNode := l.foldr insertByName []

/-- The ordered MERSCOPE candidate-root list: root, its analysis_outputs/,
then each sorted child directory followed by that child's
analysis_outputs/. -/
def to_check : FSNode → List (FSNode × String)
  | .file _ => []
  | .dir dname children =>
      [(FSNode.dir dname children, "root")]
      ++ (match lookupChild children "analysis_outputs" with
          | some ao => [(ao, "analysis_outputs")]
          | none => [])
      ++ ((sortByName children).filter FSNode.isDir).flatMap (fun child =>
           [(child, "child:" ++ child.name)]
           ++ (match child with
               | .file _ => []
               | .dir _ gchildren =>
                   match lookupChild gchildren "analysis_outputs" with
                   | some ao =>
                       [(ao, "child:" ++ child.name ++ "/analysis_outputs")]
                   | none => []))

/-- `_looks_like_visium_root`. -/
def looks_like_visium_root (children : List FSNode) (names : List String) :
    Bool :=
  if !(names.contains "spatial") then false
  else if !(names.contains "filtered_feature_bc_matrix"
      || names.contains "filtered_feature_bc_matrix.h5"
      || names.contains "raw_feature_bc_matrix"
      || names.contains "raw_feature_bc_matrix.h5") then false
  else
    let spatial_names :=
      match lookupChild children "spatial" with
      | some sp => dirnames sp
      | none => []
    spatial_names.any (fun n =>
      ["tissue_positions.csv", "tissue_positions_list.csv",
       "tissue_positions.parquet",
       "tissue_positions_list.parquet"].contains n)

/-- `_looks_like_visium_hd_root` (the node's own name and its parent's
name feed the bin-directory heuristic). -/
def looks_like_visium_hd_root (parentName dname : String)
    (children : List FSNode) (names : List String) : Bool :=
  (if names.contains "binned_outputs" then
    match lookupChild children "binned_outputs" with
    | some (.dir _ bchildren) =>
        (bchildren.filter FSNode.isDir).any (fun d =>
          let d_names := dirnames d
          looks_like_visium_root
            (match d with | .file _ => [] | .dir _ cs => cs) d_names
            || d_names.contains "spatial")
    | _ => false
  else false)
  || (names.contains "spatial"
      && (names.contains "filtered_feature_bc_matrix"
        || names.contains "filtered_feature_bc_matrix.h5"
        || names.contains "raw_feature_bc_matrix"
        || names.contains "raw_feature_bc_matrix.h5")
      && ((strStartsWith (pyLower dname) "square_"
            && strContains (pyLower dname) "um")
        || pyLower parentName == "binned_outputs"))

/-- The lowered immediate child-name set `names`. -/
def childNamesLower (children : List FSNode) : List String :=
  children.map (fun c => pyLower c.name)

/-- `detect_spatial_format`.  The input node's parent name is passed
explicitly (`p.parent.name` is used by the Visium-HD bin heuristic). -/
def detect_spatial_format (parentName : String) (node : FSNode) :
    Except String (String × String) :=
  match node with
  | .file name =>
      if is_tabular_file name then
        .ok ("tabular", "file suffix=" ++ pyLower (suffixesJoin name))
      else
        .error ("Input is a file, but not a supported tabular format. "
          ++ "Expected .csv/.tsv/.txt (optionally .gz). Got: " ++ name)
  | .dir dname children =>
      match (to_check (.dir dname children)).findSome?
          (fun dc => merscope_in_dir dc.1 dc.2) with
      | some res => .ok res
      | none =>
          if looks_like_visium_hd_root parentName dname children
              (childNamesLower children) then
            .ok ("visium_hd", "found Space Ranger binned_outputs/")
          else if looks_like_visium_root children (childNamesLower children) then
            .ok ("visium", "found spatial/tissue_positions* and feature_bc_matrix")
          else if (childNamesLower children).any (fun n =>
              ["transcripts.parquet", "cells.parquet",
               "cell_feature_matrix.h5", "experiment.xenium"].contains n) then
            .ok ("xenium", "matched Xenium signature filename")
          else if (childNamesLower children).any
                (fun n => strStartsWith n "transcripts")
              && (childNamesLower children).any
                (fun n => strStartsWith n "cells") then
            .ok ("xenium", "found transcripts* and cells* files")
          else if (childNamesLower children).contains "cell_feature_matrix" then
            .ok ("xenium", "found cell_feature_matrix directory")
          else if (childNamesLower children).any (fun n =>
              ["tx_file.csv", "cell_metadata.csv",
               "exprmat_file.csv"].contains n) then
            .ok ("cosmx", "matched CosMx signature filename")
          else if (childNamesLower children).any (fun n =>
                strContains n "tx_" || strContains n "transcript")
              && (childNamesLower children).any (fun n =>
                strContains n "cell_metadata" || strContains n "cellmeta") then
            .ok ("cosmx", "found tx/transcript and cell metadata files")
          else
            match children.filter
                (fun c => !c.isDir && is_tabular_file c.name) with
            | [t] =>
                .ok ("tabular",
                  "directory contains single tabular file: " ++ t.name)
            | _ =>
                .error ("Could not determine spatial format for directory. "
                  ++ "Expected a CosMx, MERSCOPE, Visium/Visium HD, or "
                  ++ "Xenium output directory, or a CSV/TSV file.")

/-- The weak MERSCOPE signature: a detected_transcripts*- or
*_by_gene*-named entry plus at least one supported tabular/parquet file. -/
def merscopeWeak (dn : List String) : Bool :=
  (dn.any (fun n => strContains n "detected_transcripts")
    || dn.any (fun n =>
        strContains n "cell_by_gene" || strContains n "entity_by_gene"))
  && dn.any (fun n =>
      strEndsWith n ".csv" || strEndsWith n ".csv.gz"
        || strEndsWith n ".parquet")

/-- The strong CosMx signature: one of the canonical CosMx filenames. -/
def cosmxStrong (dn : List String) : Bool :=
  dn.any (fun n =>
    ["tx_file.csv", "cell_metadata.csv", "exprmat_file.csv"].contains n)

theorem merscope_in_dir_platform (d : FSNode) (label : String)
    (res : String × String) (h : merscope_in_dir d label = some res) :
    res.1 = "merscope" := by
  unfold merscope_in_dir at h
  split at h
  · cases h; rfl
  · split at h
    · cases h; rfl
    · split at h
      · cases h; rfl
      · cases h

theorem merscope_in_dir_of_weak (d : FSNode) (label : String)
    (h : merscopeWeak (dirnames d) = true) :
    ∃ res, merscope_in_dir d label = some res := by
  unfold merscope_in_dir
  unfold merscopeWeak at h
  split
  · exact ⟨_, rfl⟩
  · split
    · exact ⟨_, rfl⟩
    · simp [h]

/-- C5.  The universal detector checks MERSCOPE (over its candidate roots,
the root first) before every other platform, so a directory satisfying
both a MERSCOPE weak signature and a CosMx strong signature detects as
merscope. -/
theorem C5_detector_merscope_precedence
    (parentName dname : String) (children : List FSNode)
    (hweak : merscopeWeak
      (children.map (fun c => pyLower c.name)) = true)
    (hcosmx : cosmxStrong
      (children.map (fun c => pyLower c.name)) = true) :
    ∃ reason,
      detect_spatial_format parentName (.dir dname children)
        = .ok ("merscope", reason) := by
  have hd : dirnames (.dir dname children)
      = children.map (fun c => pyLower c.name) := rfl
  obtain ⟨res, hres⟩ := merscope_in_dir_of_weak
    (.dir dname children) "root" (by rw [hd]; exact hweak)
  obtain ⟨resa, resb⟩ := res
  have hplat : resa = "merscope" :=
    merscope_in_dir_platform _ _ _ hres
  subst hplat
  refine ⟨resb, ?_⟩
  have hhead : (to_check (.dir dname children)).findSome?
      (fun dc => merscope_in_dir dc.1 dc.2) = some ("merscope", resb) := by
    unfold to_check
    simp only [List.cons_append, List.nil_append, List.findSome?]
    rw [hres]
  simp only [detect_spatial_format]
  rw [hhead]

/-- Witness for C5 on a concrete directory holding a weak MERSCOPE drop
(detected_transcripts_r1.csv) together with the CosMx signature files. -/
theorem C5_detector_merscope_precedence_witness :
    ∃ reason,
      detect_spatial_format "data"
          (.dir "run1"
            [.file "detected_transcripts_r1.csv", .file "tx_file.csv",
             .file "cell_metadata.csv"])
        = .ok ("merscope", reason) :=
  C5_detector_merscope_precedence "data" "run1"
    [.file "detected_transcripts_r1.csv", .file "tx_file.csv",
     .file "cell_metadata.csv"] (by decide) (by decide)


end Universal

/-! ## Table loaders: shared machinery -/

/-- Error taxonomy: one constructor per `raise ValueError` family. -/
inductive Err where
  | missingColumns (msg : String)
  | tooFewColumns (msg : String)
  | shapeMismatch (msg : String)
  | denseTooLarge (msg : String)
  | malformed (msg : String)
  | unsupported (msg : String)
deriving DecidableEq, Repr

/-- Decidable equality of loader results (for concrete witnesses). -/
instance exceptDecEq {e a : Type} [DecidableEq e] [DecidableEq a] :
    DecidableEq (Except e a)
  | .error x, .error y =>
      if h : x = y then .isTrue (by rw [h]) else .isFalse (by simp [h])
  | .error _, .ok _ => .isFalse (by simp)
  | .ok _, .error _ => .isFalse (by simp)
  | .ok x, .ok y =>
      if h : x = y then .isTrue (by rw [h]) else .isFalse (by simp [h])

/-- In-place update of position `i` of a row, `row[i] = f(row[i])`. -/
def applyAt (i : Nat) (f : Val → Val) : List Val → List Val
  | [] => []
  | v :: r => if i = 0 then f v :: r else v :: applyAt (i - 1) f r

/-- `df[c] = f(df[c])`: elementwise update of the column named `c`
(no-op when the column is absent). -/
def mapColVals (t : Table) (c : String) (f : Val → Val) : Table :=
  match t.cols.findIdx? (fun n => n == c) with
  | some i => { t with rows := t.rows.map (applyAt i f) }
  | none => t

/-- `_coerce_numeric`: `pd.to_numeric(..., errors="coerce")` on each of
the named columns that exists. -/
def coerce_numeric (t : Table) (cs : List String) : Table :=
  cs.foldl (fun acc c => mapColVals acc c toNumeric) t

/-- Rows of a four-column frame built from four equal-length series
(`pd.DataFrame({...})`). -/
def rows4 : List Val → List Val → List Val → List Val → List (List Val)
  | x :: a, y :: b, g :: c, i :: d => [x, y, g, i] :: rows4 a b c d
  | _, _, _, _ => []

/-- The canonical transcript-table columns. -/
def transcriptCols : List String := ["x", "y", "gene", "cell_id"]

/-- The canonical cell-table columns. -/
def cellCols : List String := ["cell_id", "x", "y", "cell_type"]

/-- `_empty_transcript_df()`. -/
def empty_transcript_df : Table := ⟨transcriptCols, []⟩

/-- `_empty_cell_metadata_df()`. -/
def empty_cell_metadata_df : Table := ⟨cellCols, []⟩

theorem findIdx?_isSome_of_mem {c : String} {cols : List String}
    (h : c ∈ cols) : (cols.findIdx? (fun n => n == c)).isSome := by
  induction cols with
  | nil => cases h
  | cons a l ih =>
      rcases List.mem_cons.mp h with rfl | h'
      · simp [List.findIdx?]
      · by_cases hac : a == c
        · simp [List.findIdx?, hac]
        · simp only [List.findIdx?_cons, hac, cond_false]
          simpa using ih h'

theorem Table.col_length {t : Table} {c : String} (h : c ∈ t.cols) :
    (t.col c).length = t.rows.length := by
  unfold Table.col
  rcases hf : t.cols.findIdx? (fun n => n == c) with _ | i
  · have := findIdx?_isSome_of_mem h
    rw [hf] at this
    cases this
  · simp

theorem rows4_map (F : List Val → List Val) (fa fb fc fd : Val → Val)
    (hF : ∀ x y g i, F [x, y, g, i] = [fa x, fb y, fc g, fd i]) :
    ∀ a b c d, (rows4 a b c d).map F
      = rows4 (a.map fa) (b.map fb) (c.map fc) (d.map fd) := by
  intro a
  induction a with
  | nil => intro b c d; cases b <;> cases c <;> cases d <;> simp [rows4]
  | cons x a ih =>
      intro b c d
      cases b with
      | nil => cases c <;> cases d <;> simp [rows4]
      | cons y b =>
          cases c with
          | nil => cases d <;> simp [rows4]
          | cons g c =>
              cases d with
              | nil => simp [rows4]
              | cons i d =>
                  simp only [rows4, List.map_cons, hF, ih]

theorem rows4_col3 : ∀ (a b c d : List Val),
    b.length = a.length → c.length = a.length → d.length = a.length →
    (rows4 a b c d).map (fun r => r.getD 3 .na) = d := by
  intro a
  induction a with
  | nil =>
      intro b c d hb hc hd
      simp only [List.length_nil, List.length_eq_zero] at hb hc hd
      subst hb; subst hc; subst hd
      rfl
  | cons x a ih =>
      intro b c d hb hc hd
      cases b with
      | nil => simp at hb
      | cons y b =>
          cases c with
          | nil => simp at hc
          | cons g c =>
              cases d with
              | nil => simp at hd
              | cons i d =>
                  simp only [List.length_cons, Nat.succ.injEq] at hb hc hd
                  show (fun r => r.getD 3 Val.na) [x, y, g, i]
                      :: (rows4 a b c d).map (fun r => r.getD 3 Val.na)
                    = i :: d
                  rw [ih b c d hb hc hd]
                  rfl

theorem rows4_col2 : ∀ (a b c d : List Val),
    b.length = a.length → c.length = a.length → d.length = a.length →
    (rows4 a b c d).map (fun r => r.getD 2 .na) = c := by
  intro a
  induction a with
  | nil =>
      intro b c d hb hc hd
      simp only [List.length_nil, List.length_eq_zero] at hb hc hd
      subst hb; subst hc; subst hd
      rfl
  | cons x a ih =>
      intro b c d hb hc hd
      cases b with
      | nil => simp at hb
      | cons y b =>
          cases c with
          | nil => simp at hc
          | cons g c =>
              cases d with
              | nil => simp at hd
              | cons i d =>
                  simp only [List.length_cons, Nat.succ.injEq] at hb hc hd
                  show (fun r => r.getD 2 Val.na) [x, y, g, i]
                      :: (rows4 a b c d).map (fun r => r.getD 2 Val.na)
                    = g :: c
                  rw [ih b c d hb hc hd]
                  rfl

/-- A resolved alias names a column of the table. -/
theorem firstPresent_mem {cols aliases : List String} {c : String}
    (h : firstPresent (lowerMapColumns cols) aliases = some c) : c ∈ cols := by
  obtain ⟨a, -, ha⟩ := List.exists_of_findSome?_eq_some h
  rw [mapLookup_lowerMap] at ha
  exact List.mem_of_find?_eq_some ha

/-! ## MERSCOPE transcript loader (`merscope.py::_load_transcripts`) -/

namespace Merscope

/-- The in-place update sequence the loader applies to the constructed
four-column frame: coerce x/y numeric, then cast gene and cell_id to the
"string" dtype. -/
def transcript_chain (xs ys gs cs : List Val) : Table :=
  mapColVals
    (mapColVals
      (coerce_numeric ⟨transcriptCols, rows4 xs ys gs cs⟩ ["x", "y"])
      "gene" astypeString)
    "cell_id" astypeString

/-- `_load_transcripts`: resolve x/y/gene (mandatory) and the entity/cell
id (optional); replace a numerically -1 entity id by NA before the string
cast; build the canonical four-column table. -/
def load_transcripts (t0 : Table) : Except Err Table :=
  match firstPresent (lowerMapColumns (standardizeCols t0).cols)
      ["global_x", "x", "x_um", "xcoord", "x_coord"],
    firstPresent (lowerMapColumns (standardizeCols t0).cols)
      ["global_y", "y", "y_um", "ycoord", "y_coord"],
    firstPresent (lowerMapColumns (standardizeCols t0).cols)
      ["gene", "target", "feature_name", "symbol"] with
  | some x_col, some y_col, some gene_col =>
      .ok (transcript_chain
        ((standardizeCols t0).col x_col)
        ((standardizeCols t0).col y_col)
        (((standardizeCols t0).col gene_col).map astypePyStr)
        (match firstPresent (lowerMapColumns (standardizeCols t0).cols)
            ["entityid", "entity_id", "cell_id", "cellid", "cell"] with
         | some cc =>
             ((standardizeCols t0).col cc).map
               (fun v => if toNumeric v = Val.num (-1) then Val.na else v)
         | none => List.replicate (standardizeCols t0).nrows .na))
  | _, _, _ =>
      .error (.missingColumns
        ("MERSCOPE: transcript table missing required columns. Found columns: "
          ++ toString (standardizeCols t0).cols))

theorem transcript_chain_eval (xs ys gs cs : List Val) :
    transcript_chain xs ys gs cs
      = ⟨transcriptCols,
          rows4 (xs.map toNumeric) (ys.map toNumeric)
            (gs.map astypeString) (cs.map astypeString)⟩ := by
  show Table.mk transcriptCols
      (((((rows4 xs ys gs cs).map (applyAt 0 toNumeric)).map
          (applyAt 1 toNumeric)).map (applyAt 2 astypeString)).map
        (applyAt 3 astypeString)) = _
  rw [List.map_map, List.map_map, List.map_map]
  exact congrArg (Table.mk transcriptCols)
    (rows4_map _ toNumeric toNumeric astypeString astypeString
      (fun x y g i => rfl) xs ys gs cs)

end Merscope

/-- C2.  In the MERSCOPE transcript loader, a transcript row whose
entity/cell id numerically equals -1 gets a missing `cell_id` in the
output — never the literal string "-1" — because the sentinel is replaced
before the cast to string dtype. -/
theorem C2_merscope_sentinel_na (t : Table) (cc : String)
    (hcell : firstPresent (lowerMapColumns (standardizeCols t).cols)
        ["entityid", "entity_id", "cell_id", "cellid", "cell"] = some cc)
    (out : Table) (hok : Merscope.load_transcripts t = .ok out)
    (i : Nat) (v : Val)
    (hv : ((standardizeCols t).col cc)[i]? = some v)
    (hsent : toNumeric v = Val.num (-1)) :
    (out.col "cell_id")[i]? = some Val.na
      ∧ (out.col "cell_id")[i]? ≠ some (Val.str "-1") := by
  unfold Merscope.load_transcripts at hok
  rcases hx : firstPresent (lowerMapColumns (standardizeCols t).cols)
      ["global_x", "x", "x_um", "xcoord", "x_coord"] with _ | xc <;>
    rw [hx] at hok
  · cases hok
  rcases hy : firstPresent (lowerMapColumns (standardizeCols t).cols)
      ["global_y", "y", "y_um", "ycoord", "y_coord"] with _ | yc <;>
    rw [hy] at hok
  · cases hok
  rcases hg : firstPresent (lowerMapColumns (standardizeCols t).cols)
      ["gene", "target", "feature_name", "symbol"] with _ | gc <;>
    rw [hg] at hok
  · cases hok
  rw [hcell] at hok
  simp only [Except.ok.injEq] at hok
  subst hok
  rw [Merscope.transcript_chain_eval]
  have hxl := Table.col_length (firstPresent_mem hx)
  have hyl := Table.col_length (firstPresent_mem hy)
  have hgl := Table.col_length (firstPresent_mem hg)
  have hcl := Table.col_length (firstPresent_mem hcell)
  have hcol : (Table.mk transcriptCols
      (rows4 (((standardizeCols t).col xc).map toNumeric)
        (((standardizeCols t).col yc).map toNumeric)
        ((((standardizeCols t).col gc).map astypePyStr).map astypeString)
        ((((standardizeCols t).col cc).map
            (fun v => if toNumeric v = Val.num (-1) then Val.na else v)).map
          astypeString))).col "cell_id"
      = (((standardizeCols t).col cc).map
          (fun v => if toNumeric v = Val.num (-1) then Val.na else v)).map
        astypeString := by
    show (rows4 _ _ _ _).map (fun r => r.getD 3 .na) = _
    exact rows4_col3 _ _ _ _
      (by simp [hxl, hyl]) (by simp [hxl, hgl]) (by simp [hxl, hcl])
  rw [hcol]
  rw [List.getElem?_map, List.getElem?_map, hv]
  simp only [Option.map_some']
  rw [if_pos hsent]
  exact ⟨rfl, by simp [astypeString]⟩

/-- Witness for C2: a concrete MERSCOPE transcript table whose second row
has EntityID -1 maps to a missing cell_id. -/
theorem C2_merscope_sentinel_na_witness :
    ((Table.mk ["x", "y", "gene", "cell_id"]
        [[Val.num 1, Val.num 10, Val.str "A", Val.str "5"],
         [Val.num 2, Val.num 20, Val.str "B", Val.na]]).col "cell_id")[1]?
        = some Val.na
      ∧ ((Table.mk ["x", "y", "gene", "cell_id"]
        [[Val.num 1, Val.num 10, Val.str "A", Val.str "5"],
         [Val.num 2, Val.num 20, Val.str "B", Val.na]]).col "cell_id")[1]?
        ≠ some (Val.str "-1") :=
  C2_merscope_sentinel_na
    ⟨["global_x", "global_y", "gene", "EntityID"],
     [[Val.num 1, Val.num 10, Val.str "A", Val.num 5],
      [Val.num 2, Val.num 20, Val.str "B", Val.num (-1)]]⟩
    "EntityID" (by decide)
    ⟨["x", "y", "gene", "cell_id"],
     [[Val.num 1, Val.num 10, Val.str "A", Val.str "5"],
      [Val.num 2, Val.num 20, Val.str "B", Val.na]]⟩
    (by rfl) 1 (Val.num (-1)) (by decide) (by decide)

/-! ## CosMx and Xenium transcript loaders
(`cosmx.py::_load_transcripts`, `xenium.py::_load_transcripts`) -/

namespace Cosmx

/-- The in-place update sequence of the CosMx/Xenium transcript loaders:
coerce x/y numeric, then cast cell_id, then gene, to "string" dtype. -/
def transcript_chain (xs ys gs cs : List Val) : Table :=
  mapColVals
    (mapColVals
      (coerce_numeric ⟨transcriptCols, rows4 xs ys gs cs⟩ ["x", "y"])
      "cell_id" astypeString)
    "gene" astypeString

/-- `cosmx.py::_load_transcripts`: resolve x/y/gene (mandatory) and
cell_id (optional); the gene column is cast through plain `str` while
being placed into the frame, then through the "string" dtype. -/
def load_transcripts (t0 : Table) : Except Err Table :=
  match firstPresent (lowerMapColumns (standardizeCols t0).cols)
      ["x", "x_global_px", "x_global", "x_position", "globalx", "centerx"],
    firstPresent (lowerMapColumns (standardizeCols t0).cols)
      ["y", "y_global_px", "y_global", "y_position", "globaly", "centery"],
    firstPresent (lowerMapColumns (standardizeCols t0).cols)
      ["gene", "target", "targetname", "target_name", "feature_name"] with
  | some x_col, some y_col, some gene_col =>
      .ok (transcript_chain
        ((standardizeCols t0).col x_col)
        ((standardizeCols t0).col y_col)
        (((standardizeCols t0).col gene_col).map astypePyStr)
        (match firstPresent (lowerMapColumns (standardizeCols t0).cols)
            ["cell_id", "cellid", "cell", "cell_id", "cellid_int"] with
         | some cc => (standardizeCols t0).col cc
         | none => List.replicate (standardizeCols t0).nrows .na))
  | _, _, _ =>
      .error (.missingColumns
        ("CosMx: transcript CSV missing required columns. Found columns: "
          ++ toString (standardizeCols t0).cols))

/-- The `out["gene"].isna().any()` test guarding the "NaN gene labels"
advisory. -/
def gene_nan_advisory (out : Table) : Bool :=
  (out.col "gene").any Val.isna

theorem transcript_chain_eval_cx (xs ys gs cs : List Val) :
    transcript_chain xs ys gs cs
      = ⟨transcriptCols,
          rows4 (xs.map toNumeric) (ys.map toNumeric)
            (gs.map astypeString) (cs.map astypeString)⟩ := by
  show Table.mk transcriptCols
      (((((rows4 xs ys gs cs).map (applyAt 0 toNumeric)).map
          (applyAt 1 toNumeric)).map (applyAt 3 astypeString)).map
        (applyAt 2 astypeString)) = _
  rw [List.map_map, List.map_map, List.map_map]
  exact congrArg (Table.mk transcriptCols)
    (rows4_map _ toNumeric toNumeric astypeString astypeString
      (fun x y g i => rfl) xs ys gs cs)

end Cosmx

namespace Xenium

/-- `xenium.py::_load_transcripts`: identical pipeline to CosMx with the
Xenium alias lists. -/
def load_transcripts (t0 : Table) : Except Err Table :=
  match firstPresent (lowerMapColumns (standardizeCols t0).cols)
      ["x", "x_location", "x_um", "xcoord", "x_coord"],
    firstPresent (lowerMapColumns (standardizeCols t0).cols)
      ["y", "y_location", "y_um", "ycoord", "y_coord"],
    firstPresent (lowerMapColumns (standardizeCols t0).cols)
      ["gene", "feature_name", "feature", "target", "symbol"] with
  | some x_col, some y_col, some gene_col =>
      .ok (Cosmx.transcript_chain
        ((standardizeCols t0).col x_col)
        ((standardizeCols t0).col y_col)
        (((standardizeCols t0).col gene_col).map astypePyStr)
        (match firstPresent (lowerMapColumns (standardizeCols t0).cols)
            ["cell_id", "cellid", "cell", "cell_id_int"] with
         | some cc => (standardizeCols t0).col cc
         | none => List.replicate (standardizeCols t0).nrows .na))
  | _, _, _ =>
      .error (.missingColumns
        ("Xenium: transcript table missing required columns. Found columns: "
          ++ toString (standardizeCols t0).cols))

end Xenium

/-- For any table produced by the CosMx/Xenium transcript chain with a
`str`-precast gene series, the gene column holds only strings. -/
theorem cosmx_chain_gene_col (xs ys cs graw : List Val)
    (hy : ys.length = xs.length) (hg : graw.length = xs.length)
    (hc : cs.length = xs.length) :
    ((Cosmx.transcript_chain xs ys (graw.map astypePyStr) cs).col "gene")
      = graw.map (fun v => Val.str (valPyStr v)) := by
  rw [Cosmx.transcript_chain_eval_cx]
  have : (Table.mk transcriptCols
      (rows4 (xs.map toNumeric) (ys.map toNumeric)
        ((graw.map astypePyStr).map astypeString)
        (cs.map astypeString))).col "gene"
      = (graw.map astypePyStr).map astypeString := by
    show (rows4 _ _ _ _).map (fun r => r.getD 2 .na) = _
    exact rows4_col2 _ _ _ _ (by simp [hy]) (by simp [hg]) (by simp [hc])
  rw [this, List.map_map]
  rfl

/-- Shape of any successful CosMx transcript load: the chain applied to
the resolved columns, with a `str`-precast gene series. -/
theorem cosmx_ok_shape (t out : Table)
    (hok : Cosmx.load_transcripts t = .ok out) :
    ∃ xc yc gc cs,
      firstPresent (lowerMapColumns (standardizeCols t).cols)
          ["x", "x_global_px", "x_global", "x_position", "globalx", "centerx"]
        = some xc
      ∧ firstPresent (lowerMapColumns (standardizeCols t).cols)
          ["y", "y_global_px", "y_global", "y_position", "globaly", "centery"]
        = some yc
      ∧ firstPresent (lowerMapColumns (standardizeCols t).cols)
          ["gene", "target", "targetname", "target_name", "feature_name"]
        = some gc
      ∧ cs.length = (standardizeCols t).rows.length
      ∧ out = Cosmx.transcript_chain
          ((standardizeCols t).col xc) ((standardizeCols t).col yc)
          (((standardizeCols t).col gc).map astypePyStr) cs := by
  unfold Cosmx.load_transcripts at hok
  rcases hx : firstPresent (lowerMapColumns (standardizeCols t).cols)
      ["x", "x_global_px", "x_global", "x_position", "globalx", "centerx"]
      with _ | xc <;> rw [hx] at hok
  · cases hok
  rcases hy : firstPresent (lowerMapColumns (standardizeCols t).cols)
      ["y", "y_global_px", "y_global", "y_position", "globaly", "centery"]
      with _ | yc <;> rw [hy] at hok
  · cases hok
  rcases hg : firstPresent (lowerMapColumns (standardizeCols t).cols)
      ["gene", "target", "targetname", "target_name", "feature_name"]
      with _ | gc <;> rw [hg] at hok
  · cases hok
  simp only [Except.ok.injEq] at hok
  refine ⟨xc, yc, gc, _, rfl, rfl, rfl, ?_, hok.symm⟩
  rcases hc : firstPresent (lowerMapColumns (standardizeCols t).cols)
      ["cell_id", "cellid", "cell", "cell_id", "cellid_int"] with _ | cc
  · simp [Table.nrows]
  · exact Table.col_length (firstPresent_mem hc)

/-- Shape of any successful Xenium transcript load. -/
theorem xenium_ok_shape (t out : Table)
    (hok : Xenium.load_transcripts t = .ok out) :
    ∃ xc yc gc cs,
      firstPresent (lowerMapColumns (standardizeCols t).cols)
          ["x", "x_location", "x_um", "xcoord", "x_coord"]
        = some xc
      ∧ firstPresent (lowerMapColumns (standardizeCols t).cols)
          ["y", "y_location", "y_um", "ycoord", "y_coord"]
        = some yc
      ∧ firstPresent (lowerMapColumns (standardizeCols t).cols)
          ["gene", "feature_name", "feature", "target", "symbol"]
        = some gc
      ∧ cs.length = (standardizeCols t).rows.length
      ∧ out = Cosmx.transcript_chain
          ((standardizeCols t).col xc) ((standardizeCols t).col yc)
          (((standardizeCols t).col gc).map astypePyStr) cs := by
  unfold Xenium.load_transcripts at hok
  rcases hx : firstPresent (lowerMapColumns (standardizeCols t).cols)
      ["x", "x_location", "x_um", "xcoord", "x_coord"]
      with _ | xc <;> rw [hx] at hok
  · cases hok
  rcases hy : firstPresent (lowerMapColumns (standardizeCols t).cols)
      ["y", "y_location", "y_um", "ycoord", "y_coord"]
      with _ | yc <;> rw [hy] at hok
  · cases hok
  rcases hg : firstPresent (lowerMapColumns (standardizeCols t).cols)
      ["gene", "feature_name", "feature", "target", "symbol"]
      with _ | gc <;> rw [hg] at hok
  · cases hok
  simp only [Except.ok.injEq] at hok
  refine ⟨xc, yc, gc, _, rfl, rfl, rfl, ?_, hok.symm⟩
  rcases hc : firstPresent (lowerMapColumns (standardizeCols t).cols)
      ["cell_id", "cellid", "cell", "cell_id_int"] with _ | cc
  · simp [Table.nrows]
  · exact Table.col_length (firstPresent_mem hc)

/-- The final gene column of a successful CosMx/Xenium transcript load. -/
theorem chain_gene_eval (t : Table) (xc yc gc : String) (cs : List Val)
    (hx : xc ∈ (standardizeCols t).cols) (hy : yc ∈ (standardizeCols t).cols)
    (hg : gc ∈ (standardizeCols t).cols)
    (hcl : cs.length = (standardizeCols t).rows.length) :
    ((Cosmx.transcript_chain
        ((standardizeCols t).col xc) ((standardizeCols t).col yc)
        (((standardizeCols t).col gc).map astypePyStr) cs).col "gene")
      = ((standardizeCols t).col gc).map (fun v => Val.str (valPyStr v)) := by
  have hxl := Table.col_length hx
  have hyl := Table.col_length hy
  have hgl := Table.col_length hg
  exact cosmx_chain_gene_col _ _ _ _
    (by rw [hxl, hyl]) (by simp [hxl, hgl]) (by rw [hxl, hcl])

/-- C10.  In the CosMx and Xenium transcript loaders the output gene
column never holds a missing value: the source gene column is cast through
plain `str` first, so a missing source gene becomes the literal string
"nan", and the "NaN gene labels" advisory branch cannot fire. -/
theorem C10_gene_never_missing :
    (∀ (t out : Table), Cosmx.load_transcripts t = .ok out →
      (∀ w ∈ out.col "gene", w.isna = false)
        ∧ Cosmx.gene_nan_advisory out = false
        ∧ ∀ i : Nat, (∃ gc,
            firstPresent (lowerMapColumns (standardizeCols t).cols)
                ["gene", "target", "targetname", "target_name",
                 "feature_name"] = some gc
              ∧ ((standardizeCols t).col gc)[i]? = some Val.na) →
          (out.col "gene")[i]? = some (Val.str "nan"))
    ∧ (∀ (t out : Table), Xenium.load_transcripts t = .ok out →
      (∀ w ∈ out.col "gene", w.isna = false)
        ∧ ∀ i : Nat, (∃ gc,
            firstPresent (lowerMapColumns (standardizeCols t).cols)
                ["gene", "feature_name", "feature", "target", "symbol"]
              = some gc
              ∧ ((standardizeCols t).col gc)[i]? = some Val.na) →
          (out.col "gene")[i]? = some (Val.str "nan")) := by
  constructor
  · intro t out hok
    obtain ⟨xc, yc, gc, cs, hx, hy, hg, hcl, hout⟩ := cosmx_ok_shape t out hok
    have hcol := chain_gene_eval t xc yc gc cs
      (firstPresent_mem hx) (firstPresent_mem hy) (firstPresent_mem hg) hcl
    rw [hout, hcol]
    refine ⟨?_, ?_, ?_⟩
    · intro w hw
      obtain ⟨v, -, rfl⟩ := List.mem_map.mp hw
      rfl
    · simp only [Cosmx.gene_nan_advisory]
      rw [hcol, List.any_eq_false]
      intro w hw
      obtain ⟨v, -, rfl⟩ := List.mem_map.mp hw
      simp [Val.isna]
    · rintro i ⟨gc', hg', hv⟩
      rw [hg] at hg'
      cases hg'
      simp only [List.getElem?_map]
      rw [hv]
      rfl
  · intro t out hok
    obtain ⟨xc, yc, gc, cs, hx, hy, hg, hcl, hout⟩ := xenium_ok_shape t out hok
    have hcol := chain_gene_eval t xc yc gc cs
      (firstPresent_mem hx) (firstPresent_mem hy) (firstPresent_mem hg) hcl
    rw [hout, hcol]
    refine ⟨?_, ?_⟩
    · intro w hw
      obtain ⟨v, -, rfl⟩ := List.mem_map.mp hw
      rfl
    · rintro i ⟨gc', hg', hv⟩
      rw [hg] at hg'
      cases hg'
      simp only [List.getElem?_map]
      rw [hv]
      rfl

/-- Witness for C10: a CosMx transcript table with one missing gene label
loads with gene "nan" and no NaN-gene advisory. -/
theorem C10_gene_never_missing_witness :
    (∀ w ∈ ((Table.mk ["x", "y", "gene", "cell_id"]
        [[Val.num 1, Val.num 2, Val.str "nan", Val.na]]).col "gene"),
      w.isna = false)
      ∧ Cosmx.gene_nan_advisory
          (Table.mk ["x", "y", "gene", "cell_id"]
            [[Val.num 1, Val.num 2, Val.str "nan", Val.na]]) = false
      ∧ ((Table.mk ["x", "y", "gene", "cell_id"]
          [[Val.num 1, Val.num 2, Val.str "nan", Val.na]]).col "gene")[0]?
        = some (Val.str "nan") := by
  have h := C10_gene_never_missing.1
    ⟨["x", "y", "gene"], [[Val.num 1, Val.num 2, Val.na]]⟩
    ⟨["x", "y", "gene", "cell_id"],
     [[Val.num 1, Val.num 2, Val.str "nan", Val.na]]⟩
    (by rfl)
  exact ⟨h.1, h.2.1, h.2.2 0 ⟨"gene", by decide, by decide⟩⟩

/-! ## Long-format expression pivot
(`cosmx.py::_load_expression_matrix`, `xenium.py::_load_expression_table_csv`,
`visium_hd.py::_load_expression_table_csv`) -/

/-- Positional zip of the three selected long-format columns. -/
def zip3V : List Val → List Val → List Val → List (Val × Val × Val)
  | a :: as, b :: bs, c :: cs => (a, b, c) :: zip3V as bs cs
  | _, _, _ => []

/-- The string payload of a non-missing string value. -/
def valStr? : Val → Option String
  | .str s => some s
  | _ => none

/-- Contribution of a value to a `sum` aggregation: NaN is skipped
(contributes 0). -/
def valNum : Val → ℚ
  | .num q => q
  | _ => 0

/-- The group rows the pivot retains: cell and gene keys after the
"string" cast, count after numeric coercion; rows with a missing key are
dropped (`pivot_table` dropna). -/
def keyedTriples (cells genes counts : List Val) :
    List (String × String × Val) :=
  (zip3V (cells.map astypeString) (genes.map astypeString)
      (counts.map toNumeric)).filterMap
    (fun t =>
      match valStr? t.1, valStr? t.2.1 with
      | some c, some g => some (c, g, t.2.2)
      | _, _ => none)

/-- Sum of the counts of one (cell, gene) group. -/
def sumFor (ts : List (String × String × Val)) (c g : String) : ℚ :=
  (ts.filter (fun t => t.1 == c && t.2.1 == g)).foldl
    (fun a t => qAdd a (valNum t.2.2)) 0

/-- Code-point lexicographic comparison (Python string `<`), stated on
character lists so that it evaluates on concrete inputs. -/
def listLtB : List Char → List Char → Bool
  | [], [] => false
  | [], _ :: _ => true
  | _ :: _, [] => false
  | a :: as, b :: bs =>
      if a.toNat < b.toNat then true
      else if b.toNat < a.toNat then false
      else listLtB as bs

def strLtB (a b : String) : Bool := listLtB a.data b.data

/-- Insertion into a sorted duplicate-free key list. -/
def insertSortedStr (x : String) : List String → List String
  | [] => [x]
  | y :: ys =>
      if x = y then y :: ys
      else if strLtB x y then x :: y :: ys
      else y :: insertSortedStr x ys

/-- The sorted distinct group keys (pandas group keys are sorted). -/
def sortedKeys (l : List String) : List String := l.foldr insertSortedStr []

/-- `pivot_table(index="cell_id", columns="gene", values="count",
aggfunc="sum", fill_value=0)` over the three selected columns. -/
def pivot_table_sum (cells genes counts : List Val) : Frame :=
  ⟨some "cell_id",
   (sortedKeys ((keyedTriples cells genes counts).map (fun t => t.1))).map
     Val.str,
   (sortedKeys ((keyedTriples cells genes counts).map (fun t => t.2.1))).map
     Val.str,
   (sortedKeys ((keyedTriples cells genes counts).map (fun t => t.1))).map
     (fun c =>
       (sortedKeys
           ((keyedTriples cells genes counts).map (fun t => t.2.1))).map
         (fun g => Val.num (sumFor (keyedTriples cells genes counts) c g)))⟩

/-- Matrix entry lookup by row and column label. -/
def Frame.entry (f : Frame) (r c : Val) : Option Val :=
  match f.index.findIdx? (fun v => v == r),
      f.cols.findIdx? (fun v => v == c) with
  | some i, some j => (f.rows[i]?).bind (fun row => row[j]?)
  | _, _ => none

/-- `df.set_index(df.columns[0])` followed by a string-cast index and a
numeric coercion of every value column (the wide branches). -/
def set_index_first (t : Table) : Frame :=
  ⟨some (t.cols.headD ""),
   (t.rows.map (fun r => r.getD 0 .na)).map astypeString,
   (t.cols.drop 1).map Val.str,
   t.rows.map (fun r => (r.drop 1).map toNumeric)⟩

/-- The transposed wide branch: genes were rows, cells were headers
(`df.set_index(df.columns[0]).T` with index renamed cell_id, both axes
string-cast, values numerically coerced). -/
def set_index_first_T (t : Table) : Frame :=
  ⟨some "cell_id",
   (t.cols.drop 1).map (fun c => astypeString (Val.str c)),
   (t.rows.map (fun r => r.getD 0 .na)).map astypeString,
   ((t.rows.map (fun r => r.drop 1)).transpose).map
     (fun r => r.map toNumeric)⟩

namespace Cosmx

/-- The wide-format branches of `_load_expression_matrix`. -/
def wide_expression (t0 : Table) : Except Err Frame :=
  if (standardizeCols t0).cols.length < 2 then
    .error (.tooFewColumns "CosMx: expression matrix has too few columns")
  else if ["cell_id", "cellid", "cell", "cellid_int"].contains
      (normName ((standardizeCols t0).cols.headD "")) then
    .ok (set_index_first (standardizeCols t0))
  else if ["gene", "target", "feature", "feature_name"].contains
      (normName ((standardizeCols t0).cols.headD "")) then
    .ok (set_index_first_T (standardizeCols t0))
  else
    -- ambiguous: first column assumed to be the index (advisory logged)
    .ok (set_index_first (standardizeCols t0))

/-- `_load_expression_matrix`: long format when cell_id/gene/count all
resolve and the table has at most 6 columns, else wide. -/
def load_expression_matrix (t0 : Table) : Except Err Frame :=
  match firstPresent (lowerMapColumns (standardizeCols t0).cols)
      ["cell_id", "cellid", "cell"],
    firstPresent (lowerMapColumns (standardizeCols t0).cols)
      ["gene", "target", "feature", "feature_name"],
    firstPresent (lowerMapColumns (standardizeCols t0).cols)
      ["count", "counts", "umi", "umis", "value", "expr"] with
  | some cc, some gc, some nc =>
      if (standardizeCols t0).cols.length ≤ 6 then
        .ok (pivot_table_sum ((standardizeCols t0).col cc)
          ((standardizeCols t0).col gc) ((standardizeCols t0).col nc))
      else wide_expression t0
  | _, _, _ => wide_expression t0

end Cosmx

namespace Xenium

/-- The wide-format branches of `_load_expression_table_csv`. -/
def wide_expression (t0 : Table) : Except Err Frame :=
  if (standardizeCols t0).cols.length < 2 then
    .error (.tooFewColumns "Xenium: expression matrix has too few columns")
  else if ["cell_id", "cellid", "cell", "barcode"].contains
      (normName ((standardizeCols t0).cols.headD "")) then
    .ok (set_index_first (standardizeCols t0))
  else if ["gene", "feature", "feature_name", "symbol"].contains
      (normName ((standardizeCols t0).cols.headD "")) then
    .ok (set_index_first_T (standardizeCols t0))
  else
    .ok (set_index_first (standardizeCols t0))

/-- `_load_expression_table_csv`: long format when cell_id/gene/count all
resolve and the table has at most 6 columns, else wide. -/
def load_expression_table_csv (t0 : Table) : Except Err Frame :=
  match firstPresent (lowerMapColumns (standardizeCols t0).cols)
      ["cell_id", "cellid", "cell", "barcode"],
    firstPresent (lowerMapColumns (standardizeCols t0).cols)
      ["gene", "feature", "feature_name", "symbol"],
    firstPresent (lowerMapColumns (standardizeCols t0).cols)
      ["count", "counts", "umi", "umis", "value", "expr"] with
  | some cc, some gc, some nc =>
      if (standardizeCols t0).cols.length ≤ 6 then
        .ok (pivot_table_sum ((standardizeCols t0).col cc)
          ((standardizeCols t0).col gc) ((standardizeCols t0).col nc))
      else wide_expression t0
  | _, _, _ => wide_expression t0

end Xenium

namespace VisiumHd

/-- The wide-format branches of `visium_hd.py::_load_expression_table_csv`. -/
def wide_expression (t0 : Table) : Except Err Frame :=
  if (standardizeCols t0).cols.length < 2 then
    .error (.tooFewColumns "Visium HD: expression matrix has too few columns")
  else if ["cell_id", "barcode", "barcodes", "spot", "spot_id"].contains
      (normName ((standardizeCols t0).cols.headD "")) then
    .ok (set_index_first (standardizeCols t0))
  else if ["gene", "feature", "feature_name", "symbol"].contains
      (normName ((standardizeCols t0).cols.headD "")) then
    .ok (set_index_first_T (standardizeCols t0))
  else
    .ok (set_index_first (standardizeCols t0))

/-- `visium_hd.py::_load_expression_table_csv`. -/
def load_expression_table_csv (t0 : Table) : Except Err Frame :=
  match firstPresent (lowerMapColumns (standardizeCols t0).cols)
      ["cell_id", "barcode", "barcodes", "spot", "spot_id"],
    firstPresent (lowerMapColumns (standardizeCols t0).cols)
      ["gene", "feature", "feature_name", "symbol"],
    firstPresent (lowerMapColumns (standardizeCols t0).cols)
      ["count", "counts", "umi", "umis", "value", "expr"] with
  | some cc, some gc, some nc =>
      if (standardizeCols t0).cols.length ≤ 6 then
        .ok (pivot_table_sum ((standardizeCols t0).col cc)
          ((standardizeCols t0).col gc) ((standardizeCols t0).col nc))
      else wide_expression t0
  | _, _, _ => wide_expression t0

end VisiumHd

theorem val_str_beq (a b : String) :
    ((Val.str a : Val) == Val.str b) = (a == b) := by
  by_cases h : a = b
  · simp [h]
  · have h1 : ((Val.str a : Val) == Val.str b) = false := by
      simpa using fun hc => h (Val.str.inj hc)
    have h2 : (a == b) = false := by simpa using h
    rw [h1, h2]

theorem findIdx?_of_mem {K : List String} {c : String} (h : c ∈ K) :
    ∃ i, K.findIdx? (fun s => s == c) = some i ∧ K[i]? = some c := by
  rcases hf : K.findIdx? (fun s => s == c) with _ | i
  · rw [List.findIdx?_eq_none_iff] at hf
    have := hf c h
    simp at this
  · refine ⟨i, rfl, ?_⟩
    rw [List.findIdx?_eq_some_iff_getElem] at hf
    obtain ⟨hlt, hp, -⟩ := hf
    rw [List.getElem?_eq_getElem hlt]
    simpa using hp

theorem findIdx?_map_str (K : List String) (c : String) :
    (K.map Val.str).findIdx? (fun v => v == Val.str c)
      = K.findIdx? (fun s => s == c) := by
  rw [List.findIdx?_map]
  have : ((fun v => v == Val.str c) ∘ Val.str) = fun s => s == c := by
    funext s
    exact val_str_beq s c
  rw [this]

theorem mem_insertSortedStr_self (x : String) (l : List String) :
    x ∈ insertSortedStr x l := by
  induction l with
  | nil => simp [insertSortedStr]
  | cons y ys ih =>
      by_cases hxy : x = y
      · simp [insertSortedStr, hxy]
      · by_cases hlt : strLtB x y
        · simp [insertSortedStr, hxy, hlt]
        · simp only [insertSortedStr, if_neg hxy, Bool.not_eq_true] at hlt ⊢
          rw [hlt]
          simp only [Bool.false_eq_true, if_false]
          exact List.mem_cons_of_mem _ ih

theorem mem_insertSortedStr_of_mem (x z : String) (l : List String)
    (h : z ∈ l) : z ∈ insertSortedStr x l := by
  induction l with
  | nil => cases h
  | cons y ys ih =>
      by_cases hxy : x = y
      · simpa [insertSortedStr, hxy] using h
      · by_cases hlt : strLtB x y
        · simp only [insertSortedStr, if_neg hxy, hlt, if_true]
          exact List.mem_cons_of_mem _ h
        · simp only [insertSortedStr, if_neg hxy, Bool.not_eq_true] at hlt ⊢
          rw [hlt]
          simp only [Bool.false_eq_true, if_false]
          rcases List.mem_cons.mp h with rfl | h'
          · exact List.mem_cons_self _ _
          · exact List.mem_cons_of_mem _ (ih h')

theorem mem_sortedKeys {x : String} {l : List String} (h : x ∈ l) :
    x ∈ sortedKeys l := by
  induction l with
  | nil => cases h
  | cons y ys ih =>
      rcases List.mem_cons.mp h with rfl | h'
      · exact mem_insertSortedStr_self _ _
      · exact mem_insertSortedStr_of_mem _ _ _ (ih h')

/-- Lookup in the pivoted matrix: any present (cell, gene) label pair
resolves to the summed count for that pair. -/
theorem pivot_entry (cells genes counts : List Val) (c g : String)
    (hc : c ∈ (keyedTriples cells genes counts).map (fun t => t.1))
    (hg : g ∈ (keyedTriples cells genes counts).map (fun t => t.2.1)) :
    (pivot_table_sum cells genes counts).entry (.str c) (.str g)
      = some (.num (sumFor (keyedTriples cells genes counts) c g)) := by
  obtain ⟨i, hi, hgi⟩ := findIdx?_of_mem (mem_sortedKeys hc)
  obtain ⟨j, hj, hgj⟩ := findIdx?_of_mem (mem_sortedKeys hg)
  unfold Frame.entry pivot_table_sum
  simp only [findIdx?_map_str, hi, hj]
  rw [List.getElem?_map, hgi]
  simp only [Option.map_some', Option.some_bind]
  rw [List.getElem?_map, hgj]
  rfl

/-- Both pivot facts packaged: present pairs sum; pairs with no matching
input row are exactly 0. -/
theorem pivot_props (cells genes counts : List Val) :
    (∀ c g : String,
      c ∈ (keyedTriples cells genes counts).map (fun r => r.1) →
      g ∈ (keyedTriples cells genes counts).map (fun r => r.2.1) →
      (pivot_table_sum cells genes counts).entry (.str c) (.str g)
        = some (.num (sumFor (keyedTriples cells genes counts) c g)))
    ∧ (∀ c g : String,
      c ∈ (keyedTriples cells genes counts).map (fun r => r.1) →
      g ∈ (keyedTriples cells genes counts).map (fun r => r.2.1) →
      (keyedTriples cells genes counts).filter
          (fun r => r.1 == c && r.2.1 == g) = [] →
      (pivot_table_sum cells genes counts).entry (.str c) (.str g)
        = some (.num 0)) := by
  constructor
  · exact pivot_entry cells genes counts
  · intro c g hc hg hfil
    rw [pivot_entry cells genes counts c g hc hg]
    have hz : sumFor (keyedTriples cells genes counts) c g = 0 := by
      unfold sumFor
      rw [hfil]
      rfl
    rw [hz]

/-- C3.  The CosMx, Xenium and Visium-HD CSV expression loaders, on a
table with resolvable cell_id/gene/count columns and at most 6 columns,
pivot to a cell×gene matrix whose entries are the sums of the counts of
each pair (repeats summed) and whose absent pairs are exactly 0; the
spec's concrete example pivots as documented. -/
theorem C3_long_pivot_sum :
    (∀ (t : Table) (cc gc nc : String),
      firstPresent (lowerMapColumns (standardizeCols t).cols)
          ["cell_id", "cellid", "cell"] = some cc →
      firstPresent (lowerMapColumns (standardizeCols t).cols)
          ["gene", "target", "feature", "feature_name"] = some gc →
      firstPresent (lowerMapColumns (standardizeCols t).cols)
          ["count", "counts", "umi", "umis", "value", "expr"] = some nc →
      (standardizeCols t).cols.length ≤ 6 →
      ∃ f, Cosmx.load_expression_matrix t = .ok f
        ∧ (∀ c g : String,
            c ∈ (keyedTriples ((standardizeCols t).col cc)
                ((standardizeCols t).col gc)
                ((standardizeCols t).col nc)).map (fun r => r.1) →
            g ∈ (keyedTriples ((standardizeCols t).col cc)
                ((standardizeCols t).col gc)
                ((standardizeCols t).col nc)).map (fun r => r.2.1) →
            f.entry (.str c) (.str g)
              = some (.num (sumFor
                  (keyedTriples ((standardizeCols t).col cc)
                    ((standardizeCols t).col gc)
                    ((standardizeCols t).col nc)) c g)))
        ∧ (∀ c g : String,
            c ∈ (keyedTriples ((standardizeCols t).col cc)
                ((standardizeCols t).col gc)
                ((standardizeCols t).col nc)).map (fun r => r.1) →
            g ∈ (keyedTriples ((standardizeCols t).col cc)
                ((standardizeCols t).col gc)
                ((standardizeCols t).col nc)).map (fun r => r.2.1) →
            (keyedTriples ((standardizeCols t).col cc)
                ((standardizeCols t).col gc)
                ((standardizeCols t).col nc)).filter
              (fun r => r.1 == c && r.2.1 == g) = [] →
            f.entry (.str c) (.str g) = some (.num 0)))
    ∧ (∀ (t : Table) (cc gc nc : String),
      firstPresent (lowerMapColumns (standardizeCols t).cols)
          ["cell_id", "cellid", "cell", "barcode"] = some cc →
      firstPresent (lowerMapColumns (standardizeCols t).cols)
          ["gene", "feature", "feature_name", "symbol"] = some gc →
      firstPresent (lowerMapColumns (standardizeCols t).cols)
          ["count", "counts", "umi", "umis", "value", "expr"] = some nc →
      (standardizeCols t).cols.length ≤ 6 →
      ∃ f, Xenium.load_expression_table_csv t = .ok f
        ∧ ∀ c g : String,
            c ∈ (keyedTriples ((standardizeCols t).col cc)
                ((standardizeCols t).col gc)
                ((standardizeCols t).col nc)).map (fun r => r.1) →
            g ∈ (keyedTriples ((standardizeCols t).col cc)
                ((standardizeCols t).col gc)
                ((standardizeCols t).col nc)).map (fun r => r.2.1) →
            f.entry (.str c) (.str g)
              = some (.num (sumFor
                  (keyedTriples ((standardizeCols t).col cc)
                    ((standardizeCols t).col gc)
                    ((standardizeCols t).col nc)) c g)))
    ∧ (∀ (t : Table) (cc gc nc : String),
      firstPresent (lowerMapColumns (standardizeCols t).cols)
          ["cell_id", "barcode", "barcodes", "spot", "spot_id"] = some cc →
      firstPresent (lowerMapColumns (standardizeCols t).cols)
          ["gene", "feature", "feature_name", "symbol"] = some gc →
      firstPresent (lowerMapColumns (standardizeCols t).cols)
          ["count", "counts", "umi", "umis", "value", "expr"] = some nc →
      (standardizeCols t).cols.length ≤ 6 →
      ∃ f, VisiumHd.load_expression_table_csv t = .ok f
        ∧ ∀ c g : String,
            c ∈ (keyedTriples ((standardizeCols t).col cc)
                ((standardizeCols t).col gc)
                ((standardizeCols t).col nc)).map (fun r => r.1) →
            g ∈ (keyedTriples ((standardizeCols t).col cc)
                ((standardizeCols t).col gc)
                ((standardizeCols t).col nc)).map (fun r => r.2.1) →
            f.entry (.str c) (.str g)
              = some (.num (sumFor
                  (keyedTriples ((standardizeCols t).col cc)
                    ((standardizeCols t).col gc)
                    ((standardizeCols t).col nc)) c g)))
    ∧ Cosmx.load_expression_matrix
        ⟨["cell_id", "gene", "count"],
         [[Val.str "c1", Val.str "g1", Val.num 5],
          [Val.str "c1", Val.str "g1", Val.num 3],
          [Val.str "c1", Val.str "g2", Val.num 1],
          [Val.str "c2", Val.str "g1", Val.num 2]]⟩
      = .ok ⟨some "cell_id", [Val.str "c1", Val.str "c2"],
          [Val.str "g1", Val.str "g2"],
          [[Val.num 8, Val.num 1], [Val.num 2, Val.num 0]]⟩
    ∧ (Frame.mk (some "cell_id") [Val.str "c1", Val.str "c2"]
          [Val.str "g1", Val.str "g2"]
          [[Val.num 8, Val.num 1], [Val.num 2, Val.num 0]]).entry
        (.str "c1") (.str "g1") = some (.num 8)
    ∧ (Frame.mk (some "cell_id") [Val.str "c1", Val.str "c2"]
          [Val.str "g1", Val.str "g2"]
          [[Val.num 8, Val.num 1], [Val.num 2, Val.num 0]]).entry
        (.str "c2") (.str "g2") = some (.num 0) := by
  refine ⟨?_, ?_, ?_, by decide, by decide, by decide⟩
  · intro t cc gc nc hcc hgc hnc hlen
    refine ⟨pivot_table_sum ((standardizeCols t).col cc)
        ((standardizeCols t).col gc) ((standardizeCols t).col nc),
      ?_, (pivot_props _ _ _).1, (pivot_props _ _ _).2⟩
    unfold Cosmx.load_expression_matrix
    simp only [hcc, hgc, hnc]
    rw [if_pos hlen]
  · intro t cc gc nc hcc hgc hnc hlen
    refine ⟨pivot_table_sum ((standardizeCols t).col cc)
        ((standardizeCols t).col gc) ((standardizeCols t).col nc),
      ?_, (pivot_props _ _ _).1⟩
    unfold Xenium.load_expression_table_csv
    simp only [hcc, hgc, hnc]
    rw [if_pos hlen]
  · intro t cc gc nc hcc hgc hnc hlen
    refine ⟨pivot_table_sum ((standardizeCols t).col cc)
        ((standardizeCols t).col gc) ((standardizeCols t).col nc),
      ?_, (pivot_props _ _ _).1⟩
    unfold VisiumHd.load_expression_table_csv
    simp only [hcc, hgc, hnc]
    rw [if_pos hlen]

/-- Witness for C3: the universal CosMx part instantiated on the spec's
example long table. -/
theorem C3_long_pivot_sum_witness :
    ∃ f, Cosmx.load_expression_matrix
        ⟨["cell_id", "gene", "count"],
         [[Val.str "c1", Val.str "g1", Val.num 5],
          [Val.str "c1", Val.str "g1", Val.num 3],
          [Val.str "c1", Val.str "g2", Val.num 1],
          [Val.str "c2", Val.str "g1", Val.num 2]]⟩ = .ok f
      ∧ (∀ c g : String,
          c ∈ (keyedTriples
              ((standardizeCols ⟨["cell_id", "gene", "count"],
                [[Val.str "c1", Val.str "g1", Val.num 5],
                 [Val.str "c1", Val.str "g1", Val.num 3],
                 [Val.str "c1", Val.str "g2", Val.num 1],
                 [Val.str "c2", Val.str "g1", Val.num 2]]⟩).col "cell_id")
              ((standardizeCols ⟨["cell_id", "gene", "count"],
                [[Val.str "c1", Val.str "g1", Val.num 5],
                 [Val.str "c1", Val.str "g1", Val.num 3],
                 [Val.str "c1", Val.str "g2", Val.num 1],
                 [Val.str "c2", Val.str "g1", Val.num 2]]⟩).col "gene")
              ((standardizeCols ⟨["cell_id", "gene", "count"],
                [[Val.str "c1", Val.str "g1", Val.num 5],
                 [Val.str "c1", Val.str "g1", Val.num 3],
                 [Val.str "c1", Val.str "g2", Val.num 1],
                 [Val.str "c2", Val.str "g1", Val.num 2]]⟩).col "count")).map
            (fun r => r.1) →
          g ∈ (keyedTriples
              ((standardizeCols ⟨["cell_id", "gene", "count"],
                [[Val.str "c1", Val.str "g1", Val.num 5],
                 [Val.str "c1", Val.str "g1", Val.num 3],
                 [Val.str "c1", Val.str "g2", Val.num 1],
                 [Val.str "c2", Val.str "g1", Val.num 2]]⟩).col "cell_id")
              ((standardizeCols ⟨["cell_id", "gene", "count"],
                [[Val.str "c1", Val.str "g1", Val.num 5],
                 [Val.str "c1", Val.str "g1", Val.num 3],
                 [Val.str "c1", Val.str "g2", Val.num 1],
                 [Val.str "c2", Val.str "g1", Val.num 2]]⟩).col "gene")
              ((standardizeCols ⟨["cell_id", "gene", "count"],
                [[Val.str "c1", Val.str "g1", Val.num 5],
                 [Val.str "c1", Val.str "g1", Val.num 3],
                 [Val.str "c1", Val.str "g2", Val.num 1],
                 [Val.str "c2", Val.str "g1", Val.num 2]]⟩).col "count")).map
            (fun r => r.2.1) →
          f.entry (.str c) (.str g)
            = some (.num (sumFor
                (keyedTriples
                  ((standardizeCols ⟨["cell_id", "gene", "count"],
                    [[Val.str "c1", Val.str "g1", Val.num 5],
                     [Val.str "c1", Val.str "g1", Val.num 3],
                     [Val.str "c1", Val.str "g2", Val.num 1],
                     [Val.str "c2", Val.str "g1", Val.num 2]]⟩).col "cell_id")
                  ((standardizeCols ⟨["cell_id", "gene", "count"],
                    [[Val.str "c1", Val.str "g1", Val.num 5],
                     [Val.str "c1", Val.str "g1", Val.num 3],
                     [Val.str "c1", Val.str "g2", Val.num 1],
                     [Val.str "c2", Val.str "g1", Val.num 2]]⟩).col "gene")
                  ((standardizeCols ⟨["cell_id", "gene", "count"],
                    [[Val.str "c1", Val.str "g1", Val.num 5],
                     [Val.str "c1", Val.str "g1", Val.num 3],
                     [Val.str "c1", Val.str "g2", Val.num 1],
                     [Val.str "c2", Val.str "g1", Val.num 2]]⟩).col "count"))
                c g))) := by
  obtain ⟨f, hok, hsum, -⟩ := C3_long_pivot_sum.1
    ⟨["cell_id", "gene", "count"],
     [[Val.str "c1", Val.str "g1", Val.num 5],
      [Val.str "c1", Val.str "g1", Val.num 3],
      [Val.str "c1", Val.str "g2", Val.num 1],
      [Val.str "c2", Val.str "g1", Val.num 2]]⟩
    "cell_id" "gene" "count" (by decide) (by decide) (by decide) (by decide)
  exact ⟨f, hok, hsum⟩

/-! ## Visium HD tissue positions
(`visium_hd.py::_load_positions_as_cell_metadata`) -/

/-- Truncation toward zero, numpy `.astype(int)` on a float. -/
def qTrunc (q : ℚ) : Int := q.num.tdiv (q.den : Int)

/-- Keep the rows whose mask bit is set, preserving order
(`out.loc[mask]`). -/
def maskFilter (rows : List (List Val)) (mask : List Bool) :
    List (List Val) :=
  (rows.zip mask).filterMap (fun p => if p.2 then some p.1 else none)

namespace VisiumHd

/-- The boolean mask `it.fillna(0).astype(int) == 1` over the raw
in_tissue column (`it = to_numeric(..., errors="coerce")`;
`valNum` is the fillna(0)). -/
def tissue_mask (vals : List Val) : List Bool :=
  vals.map (fun v => qTrunc (valNum (toNumeric v)) == 1)

/-- `it.notna().any()`: at least one in_tissue value parses. -/
def tissue_gate (vals : List Val) : Bool :=
  (vals.map toNumeric).any (fun v => !v.isna)

/-- The in-place update sequence on the constructed cell table: string
cast of the barcode at construction, numeric coercion of x/y, string cast
of cell_type. -/
def positions_chain (ids xs ys cts : List Val) : Table :=
  mapColVals (coerce_numeric ⟨cellCols, rows4 ids xs ys cts⟩ ["x", "y"])
    "cell_type" astypeString

/-- `_load_positions_as_cell_metadata`: barcode mandatory; pixel
coordinates preferred over array coordinates, at least one pair
mandatory; in-tissue filtering applied when the column resolves and some
value parses. -/
def load_positions (t0 : Table) : Except Err Table :=
  match firstPresent (lowerMapColumns (standardizeCols t0).cols)
      ["barcode", "barcodes", "spot", "spot_id", "cell_id"] with
  | none =>
      .error (.missingColumns
        ("Visium HD: tissue positions missing required barcode column. "
          ++ "Found columns: " ++ toString (standardizeCols t0).cols))
  | some bc =>
      match (firstPresent (lowerMapColumns (standardizeCols t0).cols)
            ["pxl_col_in_fullres", "pixel_col", "pxl_col", "col_px"]).orElse
          (fun _ => firstPresent (lowerMapColumns (standardizeCols t0).cols)
            ["array_col", "col", "grid_col"]),
        (firstPresent (lowerMapColumns (standardizeCols t0).cols)
            ["pxl_row_in_fullres", "pixel_row", "pxl_row", "row_px"]).orElse
          (fun _ => firstPresent (lowerMapColumns (standardizeCols t0).cols)
            ["array_row", "row", "grid_row"]) with
      | some x_src, some y_src =>
          .ok (match firstPresent (lowerMapColumns (standardizeCols t0).cols)
                ["in_tissue", "tissue"] with
            | some ic =>
                if tissue_gate ((standardizeCols t0).col ic) then
                  Table.mk
                    (positions_chain
                      (((standardizeCols t0).col bc).map astypeString)
                      ((standardizeCols t0).col x_src)
                      ((standardizeCols t0).col y_src)
                      (List.replicate (standardizeCols t0).nrows .na)).cols
                    (maskFilter
                      (positions_chain
                        (((standardizeCols t0).col bc).map astypeString)
                        ((standardizeCols t0).col x_src)
                        ((standardizeCols t0).col y_src)
                        (List.replicate (standardizeCols t0).nrows .na)).rows
                      (tissue_mask ((standardizeCols t0).col ic)))
                else
                  positions_chain
                    (((standardizeCols t0).col bc).map astypeString)
                    ((standardizeCols t0).col x_src)
                    ((standardizeCols t0).col y_src)
                    (List.replicate (standardizeCols t0).nrows .na)
            | none =>
                positions_chain
                  (((standardizeCols t0).col bc).map astypeString)
                  ((standardizeCols t0).col x_src)
                  ((standardizeCols t0).col y_src)
                  (List.replicate (standardizeCols t0).nrows .na))
      | _, _ =>
          .error (.missingColumns
            ("Visium HD: tissue positions missing required coordinate "
              ++ "columns. Need pixel (pxl_*_in_fullres) or array "
              ++ "(array_row/array_col). Found columns: "
              ++ toString (standardizeCols t0).cols))

end VisiumHd

/-- C7 counterexample: an in_tissue value of 1.5 is not equal to 1, yet
the loader keeps its row (`astype(int)` truncates 1.5 to 1), so "exactly
the rows whose in_tissue value equals 1 are kept" fails. -/
theorem C7_counterexample_in_tissue_truncation :
    VisiumHd.load_positions
        ⟨["barcode", "in_tissue", "pxl_row_in_fullres", "pxl_col_in_fullres"],
         [[Val.str "b1", Val.str "1", Val.num 10, Val.num 20],
          [Val.str "b2", Val.str "1.5", Val.num 11, Val.num 21]]⟩
      = .ok ⟨["cell_id", "x", "y", "cell_type"],
          [[Val.str "b1", Val.num 20, Val.num 10, Val.na],
           [Val.str "b2", Val.num 21, Val.num 11, Val.na]]⟩
      ∧ toNumeric (Val.str "1.5") ≠ Val.num 1 := by
  constructor
  · decide
  · decide

theorem rows4_length : ∀ (a b c d : List Val),
    b.length = a.length → c.length = a.length → d.length = a.length →
    (rows4 a b c d).length = a.length := by
  intro a
  induction a with
  | nil =>
      intro b c d hb hc hd
      simp only [List.length_nil, List.length_eq_zero] at hb hc hd
      subst hb; subst hc; subst hd
      rfl
  | cons x a ih =>
      intro b c d hb hc hd
      cases b with
      | nil => simp at hb
      | cons y b =>
          cases c with
          | nil => simp at hc
          | cons g c =>
              cases d with
              | nil => simp at hd
              | cons i d =>
                  simp only [List.length_cons, Nat.succ.injEq] at hb hc hd
                  show (rows4 a b c d).length + 1 = a.length + 1
                  rw [ih b c d hb hc hd]

theorem orElse_firstPresent_mem {cols al1 al2 : List String} {c : String}
    (h : ((firstPresent (lowerMapColumns cols) al1).orElse
        (fun _ => firstPresent (lowerMapColumns cols) al2)) = some c) :
    c ∈ cols := by
  rcases h1 : firstPresent (lowerMapColumns cols) al1 with _ | v
  · rw [h1] at h
    simp only [Option.orElse, Option.none_orElse] at h
    exact firstPresent_mem h
  · rw [h1] at h
    simp only [Option.orElse, Option.some_orElse] at h
    cases h
    exact firstPresent_mem h1

theorem positions_chain_eval (ids xs ys cts : List Val) :
    VisiumHd.positions_chain ids xs ys cts
      = ⟨cellCols,
          rows4 ids (xs.map toNumeric) (ys.map toNumeric)
            (cts.map astypeString)⟩ := by
  show Table.mk cellCols
      ((((rows4 ids xs ys cts).map (applyAt 1 toNumeric)).map
          (applyAt 2 toNumeric)).map (applyAt 3 astypeString)) = _
  rw [List.map_map, List.map_map]
  have := rows4_map
    ((applyAt 3 astypeString ∘ applyAt 2 toNumeric) ∘ applyAt 1 toNumeric)
    (fun v => v) toNumeric toNumeric astypeString
    (fun x y g i => rfl) ids xs ys cts
  rw [this, List.map_id']

theorem positions_chain_rows_length (ids xs ys cts : List Val)
    (hx : xs.length = ids.length) (hy : ys.length = ids.length)
    (hc : cts.length = ids.length) :
    (VisiumHd.positions_chain ids xs ys cts).rows.length = ids.length := by
  rw [positions_chain_eval]
  exact rows4_length _ _ _ _ (by simp [hx]) (by simp [hy]) (by simp [hc])

/-- C7 amended.  For every positions table with a resolving in_tissue
column at least one of whose values parses, exactly the rows whose
in_tissue value coerces (NA as 0) and truncates toward zero
(`astype(int)`) to 1 are kept, in original relative order — equality with
1 after truncation, not numeric equality with 1; when the column is
absent or no value parses, no row is dropped. -/
theorem C7_amended_tissue_filter :
    (∀ (t : Table) (ic : String) (out : Table),
      firstPresent (lowerMapColumns (standardizeCols t).cols)
          ["in_tissue", "tissue"] = some ic →
      VisiumHd.tissue_gate ((standardizeCols t).col ic) = true →
      VisiumHd.load_positions t = .ok out →
      ∃ bc x_src y_src,
        firstPresent (lowerMapColumns (standardizeCols t).cols)
            ["barcode", "barcodes", "spot", "spot_id", "cell_id"] = some bc
        ∧ out.rows = maskFilter
            (VisiumHd.positions_chain
              (((standardizeCols t).col bc).map astypeString)
              ((standardizeCols t).col x_src)
              ((standardizeCols t).col y_src)
              (List.replicate (standardizeCols t).nrows .na)).rows
            (VisiumHd.tissue_mask ((standardizeCols t).col ic))
        ∧ VisiumHd.tissue_mask ((standardizeCols t).col ic)
            = ((standardizeCols t).col ic).map
              (fun v => qTrunc (valNum (toNumeric v)) == 1))
    ∧ (∀ (t : Table) (out : Table),
      firstPresent (lowerMapColumns (standardizeCols t).cols)
          ["in_tissue", "tissue"] = none →
      VisiumHd.load_positions t = .ok out →
      out.rows.length = (standardizeCols t).rows.length)
    ∧ (∀ (t : Table) (ic : String) (out : Table),
      firstPresent (lowerMapColumns (standardizeCols t).cols)
          ["in_tissue", "tissue"] = some ic →
      VisiumHd.tissue_gate ((standardizeCols t).col ic) = false →
      VisiumHd.load_positions t = .ok out →
      out.rows.length = (standardizeCols t).rows.length) := by
  refine ⟨?_, ?_, ?_⟩
  · intro t ic out hic hgate hok
    unfold VisiumHd.load_positions at hok
    rcases hb : firstPresent (lowerMapColumns (standardizeCols t).cols)
        ["barcode", "barcodes", "spot", "spot_id", "cell_id"]
        with _ | bc <;> rw [hb] at hok
    · cases hok
    rcases hxs : ((firstPresent (lowerMapColumns (standardizeCols t).cols)
          ["pxl_col_in_fullres", "pixel_col", "pxl_col", "col_px"]).orElse
        (fun _ => firstPresent (lowerMapColumns (standardizeCols t).cols)
          ["array_col", "col", "grid_col"])) with _ | x_src <;>
      rw [hxs] at hok
    · cases hok
    rcases hys : ((firstPresent (lowerMapColumns (standardizeCols t).cols)
          ["pxl_row_in_fullres", "pixel_row", "pxl_row", "row_px"]).orElse
        (fun _ => firstPresent (lowerMapColumns (standardizeCols t).cols)
          ["array_row", "row", "grid_row"])) with _ | y_src <;>
      rw [hys] at hok
    · cases hok
    rw [hic] at hok
    simp only [Except.ok.injEq] at hok
    rw [if_pos hgate] at hok
    refine ⟨bc, x_src, y_src, rfl, ?_, rfl⟩
    rw [← hok]
  · intro t out hic hok
    unfold VisiumHd.load_positions at hok
    rcases hb : firstPresent (lowerMapColumns (standardizeCols t).cols)
        ["barcode", "barcodes", "spot", "spot_id", "cell_id"]
        with _ | bc <;> rw [hb] at hok
    · cases hok
    rcases hxs : ((firstPresent (lowerMapColumns (standardizeCols t).cols)
          ["pxl_col_in_fullres", "pixel_col", "pxl_col", "col_px"]).orElse
        (fun _ => firstPresent (lowerMapColumns (standardizeCols t).cols)
          ["array_col", "col", "grid_col"])) with _ | x_src <;>
      rw [hxs] at hok
    · cases hok
    rcases hys : ((firstPresent (lowerMapColumns (standardizeCols t).cols)
          ["pxl_row_in_fullres", "pixel_row", "pxl_row", "row_px"]).orElse
        (fun _ => firstPresent (lowerMapColumns (standardizeCols t).cols)
          ["array_row", "row", "grid_row"])) with _ | y_src <;>
      rw [hys] at hok
    · cases hok
    rw [hic] at hok
    simp only [Except.ok.injEq] at hok
    rw [← hok]
    rw [positions_chain_rows_length]
    · rw [List.length_map]
      exact Table.col_length (firstPresent_mem hb)
    · rw [Table.col_length (orElse_firstPresent_mem hxs), List.length_map,
        Table.col_length (firstPresent_mem hb)]
    · rw [Table.col_length (orElse_firstPresent_mem hys), List.length_map,
        Table.col_length (firstPresent_mem hb)]
    · rw [List.length_replicate, List.length_map,
        Table.col_length (firstPresent_mem hb)]
      rfl
  · intro t ic out hic hgate hok
    unfold VisiumHd.load_positions at hok
    rcases hb : firstPresent (lowerMapColumns (standardizeCols t).cols)
        ["barcode", "barcodes", "spot", "spot_id", "cell_id"]
        with _ | bc <;> rw [hb] at hok
    · cases hok
    rcases hxs : ((firstPresent (lowerMapColumns (standardizeCols t).cols)
          ["pxl_col_in_fullres", "pixel_col", "pxl_col", "col_px"]).orElse
        (fun _ => firstPresent (lowerMapColumns (standardizeCols t).cols)
          ["array_col", "col", "grid_col"])) with _ | x_src <;>
      rw [hxs] at hok
    · cases hok
    rcases hys : ((firstPresent (lowerMapColumns (standardizeCols t).cols)
          ["pxl_row_in_fullres", "pixel_row", "pxl_row", "row_px"]).orElse
        (fun _ => firstPresent (lowerMapColumns (standardizeCols t).cols)
          ["array_row", "row", "grid_row"])) with _ | y_src <;>
      rw [hys] at hok
    · cases hok
    rw [hic] at hok
    simp only [Except.ok.injEq] at hok
    rw [if_neg (by rw [hgate]; exact Bool.false_ne_true)] at hok
    rw [← hok]
    rw [positions_chain_rows_length]
    · rw [List.length_map]
      exact Table.col_length (firstPresent_mem hb)
    · rw [Table.col_length (orElse_firstPresent_mem hxs), List.length_map,
        Table.col_length (firstPresent_mem hb)]
    · rw [Table.col_length (orElse_firstPresent_mem hys), List.length_map,
        Table.col_length (firstPresent_mem hb)]
    · rw [List.length_replicate, List.length_map,
        Table.col_length (firstPresent_mem hb)]
      rfl

/-- Witness for the amended C7 on the spec's [1,0,1] example. -/
theorem C7_amended_tissue_filter_witness :
    ∃ bc x_src y_src,
      firstPresent
          (lowerMapColumns (standardizeCols
            ⟨["barcode", "in_tissue", "pxl_row_in_fullres",
              "pxl_col_in_fullres"],
             [[Val.str "b1", Val.num 1, Val.num 1, Val.num 2],
              [Val.str "b2", Val.num 0, Val.num 3, Val.num 4],
              [Val.str "b3", Val.num 1, Val.num 5, Val.num 6]]⟩).cols)
          ["barcode", "barcodes", "spot", "spot_id", "cell_id"] = some bc
      ∧ (Table.mk ["cell_id", "x", "y", "cell_type"]
          [[Val.str "b1", Val.num 2, Val.num 1, Val.na],
           [Val.str "b3", Val.num 6, Val.num 5, Val.na]]).rows
        = maskFilter
          (VisiumHd.positions_chain
            (((standardizeCols
              ⟨["barcode", "in_tissue", "pxl_row_in_fullres",
                "pxl_col_in_fullres"],
               [[Val.str "b1", Val.num 1, Val.num 1, Val.num 2],
                [Val.str "b2", Val.num 0, Val.num 3, Val.num 4],
                [Val.str "b3", Val.num 1, Val.num 5, Val.num 6]]⟩).col
              bc).map astypeString)
            ((standardizeCols
              ⟨["barcode", "in_tissue", "pxl_row_in_fullres",
                "pxl_col_in_fullres"],
               [[Val.str "b1", Val.num 1, Val.num 1, Val.num 2],
                [Val.str "b2", Val.num 0, Val.num 3, Val.num 4],
                [Val.str "b3", Val.num 1, Val.num 5, Val.num 6]]⟩).col x_src)
            ((standardizeCols
              ⟨["barcode", "in_tissue", "pxl_row_in_fullres",
                "pxl_col_in_fullres"],
               [[Val.str "b1", Val.num 1, Val.num 1, Val.num 2],
                [Val.str "b2", Val.num 0, Val.num 3, Val.num 4],
                [Val.str "b3", Val.num 1, Val.num 5, Val.num 6]]⟩).col y_src)
            (List.replicate (standardizeCols
              ⟨["barcode", "in_tissue", "pxl_row_in_fullres",
                "pxl_col_in_fullres"],
               [[Val.str "b1", Val.num 1, Val.num 1, Val.num 2],
                [Val.str "b2", Val.num 0, Val.num 3, Val.num 4],
                [Val.str "b3", Val.num 1, Val.num 5, Val.num 6]]⟩).nrows
              .na)).rows
          (VisiumHd.tissue_mask ((standardizeCols
            ⟨["barcode", "in_tissue", "pxl_row_in_fullres",
              "pxl_col_in_fullres"],
             [[Val.str "b1", Val.num 1, Val.num 1, Val.num 2],
              [Val.str "b2", Val.num 0, Val.num 3, Val.num 4],
              [Val.str "b3", Val.num 1, Val.num 5, Val.num 6]]⟩).col
            "in_tissue"))
      ∧ VisiumHd.tissue_mask ((standardizeCols
          ⟨["barcode", "in_tissue", "pxl_row_in_fullres",
            "pxl_col_in_fullres"],
           [[Val.str "b1", Val.num 1, Val.num 1, Val.num 2],
            [Val.str "b2", Val.num 0, Val.num 3, Val.num 4],
            [Val.str "b3", Val.num 1, Val.num 5, Val.num 6]]⟩).col
          "in_tissue")
        = ((standardizeCols
          ⟨["barcode", "in_tissue", "pxl_row_in_fullres",
            "pxl_col_in_fullres"],
           [[Val.str "b1", Val.num 1, Val.num 1, Val.num 2],
            [Val.str "b2", Val.num 0, Val.num 3, Val.num 4],
            [Val.str "b3", Val.num 1, Val.num 5, Val.num 6]]⟩).col
          "in_tissue").map
          (fun v => qTrunc (valNum (toNumeric v)) == 1) :=
  C7_amended_tissue_filter.1
    ⟨["barcode", "in_tissue", "pxl_row_in_fullres", "pxl_col_in_fullres"],
     [[Val.str "b1", Val.num 1, Val.num 1, Val.num 2],
      [Val.str "b2", Val.num 0, Val.num 3, Val.num 4],
      [Val.str "b3", Val.num 1, Val.num 5, Val.num 6]]⟩
    "in_tissue"
    ⟨["cell_id", "x", "y", "cell_type"],
     [[Val.str "b1", Val.num 2, Val.num 1, Val.na],
      [Val.str "b3", Val.num 6, Val.num 5, Val.na]]⟩
    (by decide) (by decide) (by rfl)

/-! ## Matrix-Market / MEX loaders
(`visium.py::_read_matrix_market_dense`, `visium.py::_load_mex_dir`,
`xenium.py::_load_mex_dir`, `visium_hd.py::_load_mex_dir`) -/

/-- `str.split()` on whitespace runs. -/
def splitWSAux : List Char → List Char → List String
  | [], acc => if acc.isEmpty then [] else [⟨acc.reverse⟩]
  | c :: rest, acc =>
      if isPyWS c then
        if acc.isEmpty then splitWSAux rest []
        else ⟨acc.reverse⟩ :: splitWSAux rest []
      else splitWSAux rest (c :: acc)

def splitWS (s : String) : List String :=
  splitWSAux s.data []

/-- `s.split("\t")`. -/
def splitTabAux : List Char → List Char → List String
  | [], acc => [⟨acc.reverse⟩]
  | c :: rest, acc =>
      if c = '\t' then ⟨acc.reverse⟩ :: splitTabAux rest []
      else splitTabAux rest (c :: acc)

def splitTab (s : String) : List String := splitTabAux s.data []

/-- `int(s)`: optional sign and decimal digits, nothing else. -/
def parseIntStr (s : String) : Option Int :=
  let cs := (pyStrip s).data
  let signed : Int × List Char :=
    match cs with
    | '-' :: r => (-1, r)
    | '+' :: r => (1, r)
    | r => (1, r)
  if signed.2.isEmpty || !signed.2.all Char.isDigit then none
  else some (signed.1 * (digitsToNat signed.2 : Int))

/-- `int(s)` restricted to the nonnegative dimension fields. -/
def parseNatStr (s : String) : Option Nat :=
  let cs := (pyStrip s).data
  if cs.isEmpty || !cs.all Char.isDigit then none
  else some (digitsToNat cs)

/-- A dense Matrix-Market matrix: header shape and the value grid. -/
structure MMat where
  nrows : Nat
  ncols : Nat
  data : List (List Int)
deriving DecidableEq, Repr

/-- The `_MAX_DENSE_ENTRIES` constant of visium.py. -/
def MAX_DENSE_ENTRIES : Nat := 20000000

/-- Skip the `%`-comment lines after the banner; at end of file
`readline()` returns the empty string. -/
def dropComments : List String → String × List String
  | [] => ("", [])
  | l :: rest => if strStartsWith l "%" then dropComments rest else (l, rest)

/-- Header and dims parsing shared by the dense reader and the scipy
model: banner check, comment skip, three integer dims. -/
def mm_header_dims (pathName : String) (lines : List String) :
    Except Err (Nat × Nat × Nat × List String) :=
  match lines with
  | [] => .error (.malformed ("Visium: not a MatrixMarket file: " ++ pathName))
  | header :: rest =>
      if !strStartsWith header "%%MatrixMarket" then
        .error (.malformed ("Visium: not a MatrixMarket file: " ++ pathName))
      else
        match dropComments rest with
        | (dimsLine, rest') =>
            match splitWS dimsLine with
            | [d0, d1, d2] =>
                match parseNatStr d0, parseNatStr d1, parseNatStr d2 with
                | some nr, some nc, some ne => .ok (nr, nc, ne, rest')
                | _, _, _ =>
                    .error (.malformed
                      ("Visium: invalid MatrixMarket dims line (file: "
                        ++ pathName ++ ")"))
            | _ =>
                .error (.malformed
                  ("Visium: invalid MatrixMarket dims line (file: "
                    ++ pathName ++ ")"))

/-- Write one entry, `mat[r, c] = v`. -/
def setMat (mat : List (List Int)) (r c : Nat) (v : Int) :
    List (List Int) :=
  mat.set r ((mat.getD r []).set c v)

/-- The entry-reading loop of `_read_matrix_market_dense` (and of the
scipy model): `n_entries` lines of `row col value`. -/
def readEntries (pathName : String) (nr nc : Nat) :
    Nat → List String → List (List Int) → Except Err (List (List Int))
  | 0, _, mat => .ok mat
  | _ + 1, [], _ =>
      .error (.malformed
        ("Visium: unexpected EOF reading MatrixMarket entries (file: "
          ++ pathName ++ ")"))
  | fuel + 1, row :: rest, mat =>
      match splitWS row with
          | p0 :: p1 :: p2 :: _ =>
              match parseIntStr p0, parseIntStr p1, parseNumQ p2 with
              | some r1, some c1, some v =>
                  if r1 - 1 < 0 || c1 - 1 < 0 || r1 - 1 ≥ (nr : Int)
                      || c1 - 1 ≥ (nc : Int) then
                    .error (.malformed
                      ("Visium: entry index out of bounds (file: "
                        ++ pathName ++ ")"))
                  else
                    readEntries pathName nr nc fuel rest
                      (setMat mat (r1 - 1).toNat (c1 - 1).toNat (qTrunc v))
              | _, _, _ =>
                  .error (.malformed
                    ("Visium: invalid MatrixMarket entry line (file: "
                      ++ pathName ++ ")"))
          | _ =>
              .error (.malformed
                ("Visium: invalid MatrixMarket entry line (file: "
                  ++ pathName ++ ")"))

/-- `_read_matrix_market_dense`: banner, dims, hard dense ceiling, zeros,
entry loop. -/
def read_matrix_market_dense (pathName : String) (max_dense_entries : Nat)
    (lines : List String) : Except Err MMat :=
  match mm_header_dims pathName lines with
  | .error e => .error e
  | .ok (nr, nc, ne, rest) =>
      if nr * nc > max_dense_entries then
        .error (.denseTooLarge
          ("Visium: matrix is too large to load densely without scipy. "
            ++ "shape=(" ++ toString nr ++ "," ++ toString nc ++ ") entries="
            ++ toString (nr * nc) ++ ". "
            ++ "Install 'scipy' for sparse loading or export a smaller panel. "
            ++ "(file: " ++ pathName ++ ")"))
      else
        match readEntries pathName nr nc ne rest
            (List.replicate nr (List.replicate nc 0)) with
        | .error e => .error e
        | .ok mat => .ok ⟨nr, nc, mat⟩

/-- Model of `scipy.io.mmread` (external collaborator): same grammar, no
dense ceiling. -/
def scipy_mmread (lines : List String) : Except Err MMat :=
  match mm_header_dims "matrix.mtx" lines with
  | .error e => .error e
  | .ok (nr, nc, ne, rest) =>
      match readEntries "matrix.mtx" nr nc ne rest
          (List.replicate nr (List.replicate nc 0)) with
      | .error e => .error e
      | .ok mat => .ok ⟨nr, nc, mat⟩

/-- visium.py `_read_tsv_first_col`: first tab field of each non-empty
line. -/
def vis_read_tsv_first_col (lines : List String) : List String :=
  lines.filterMap (fun l =>
    if l = "" then none else some ((splitTab l).headD ""))

/-- visium.py `_read_tsv_first_or_second_col`: the feature name (second
field) when present and non-blank, else the feature id. -/
def vis_read_tsv_first_or_second_col (lines : List String) : List String :=
  lines.filterMap (fun l =>
    if l = "" then none
    else
      match splitTab l with
      | p0 :: p1 :: _ => if pyStrip p1 ≠ "" then some p1 else some p0
      | ps => some (ps.headD ""))

/-- xenium.py / visium_hd.py `_read_tsv_first_col` with its
`prefer_second_col` switch keyed on the first row's width. -/
def xen_read_tsv_col (lines : List String) (prefer_second : Bool) :
    List String :=
  match (lines.filter (fun l => pyStrip l ≠ "")).map splitTab with
  | [] => []
  | r0 :: rs =>
      if prefer_second && r0.length ≥ 2 then
        (r0 :: rs).map (fun r => r.getD 1 "")
      else (r0 :: rs).map (fun r => r.getD 0 "")

/-- The three files of a MEX directory, already read as text lines
(discovery of the files themselves is out of scope here). -/
structure MexDir where
  matrixLines : List String
  barcodesLines : List String
  featuresLines : List String

/-- Model of `pd.DataFrame.sparse.from_spmatrix(m, index=..., columns=...)`
(external collaborator): pandas rejects index/columns whose lengths do not
match the matrix shape. -/
def from_spmatrix (nrows ncols : Nat) (idx cols : List String)
    (values : List (List Val)) : Except Err Frame :=
  if nrows = idx.length ∧ ncols = cols.length then
    .ok ⟨some "cell_id", idx.map Val.str, cols.map Val.str, values⟩
  else
    .error (.shapeMismatch
      "pandas: shape of sparse matrix does not match index/columns lengths")

namespace Visium

/-- visium.py `_load_mex_dir`: pure-python dense Matrix-Market read with
an explicit shape check against the parsed feature/barcode lists. -/
def load_mex_dir (m : MexDir) : Except Err Frame :=
  match read_matrix_market_dense "matrix.mtx" MAX_DENSE_ENTRIES
      m.matrixLines with
  | .error e => .error e
  | .ok mat =>
      if (mat.nrows, mat.ncols)
          ≠ ((vis_read_tsv_first_or_second_col m.featuresLines).length,
             (vis_read_tsv_first_col m.barcodesLines).length) then
        .error (.shapeMismatch
          ("Visium: matrix.mtx shape does not match features/barcodes: "
            ++ "matrix=(" ++ toString mat.nrows ++ ", " ++ toString mat.ncols
            ++ "), features="
            ++ toString (vis_read_tsv_first_or_second_col m.featuresLines).length
            ++ ", barcodes="
            ++ toString (vis_read_tsv_first_col m.barcodesLines).length
            ++ " (file: matrix.mtx)"))
      else
        .ok ⟨some "cell_id",
          (vis_read_tsv_first_col m.barcodesLines).map Val.str,
          (vis_read_tsv_first_or_second_col m.featuresLines).map Val.str,
          mat.data.transpose.map (fun r =>
            r.map (fun z => Val.num (mkRat z 1)))⟩

end Visium

namespace Xenium

/-- xenium.py `_load_mex_dir`: scipy `mmread`, transpose, and the pandas
`from_spmatrix` constructor, whose length validation is the only shape
check on this path. -/
def load_mex_dir (m : MexDir) : Except Err Frame :=
  match scipy_mmread m.matrixLines with
  | .error e => .error e
  | .ok mat =>
      from_spmatrix mat.ncols mat.nrows
        (xen_read_tsv_col m.barcodesLines false)
        (xen_read_tsv_col m.featuresLines true)
        (mat.data.transpose.map (fun r =>
          r.map (fun z => Val.num (mkRat z 1))))

end Xenium

/-- C8.  A Matrix-Market MEX load whose parsed matrix shape does not
equal (number of features, number of barcodes) raises a shape-mismatch
fatal error — Visium via its explicit check, Xenium via the length
validation of the pandas sparse-frame constructor — never silently
truncating or padding. -/
theorem C8_mex_shape_mismatch_fatal :
    (∀ (m : MexDir) (mat : MMat),
      read_matrix_market_dense "matrix.mtx" MAX_DENSE_ENTRIES m.matrixLines
          = .ok mat →
      (mat.nrows, mat.ncols)
          ≠ ((vis_read_tsv_first_or_second_col m.featuresLines).length,
             (vis_read_tsv_first_col m.barcodesLines).length) →
      ∃ msg, Visium.load_mex_dir m = .error (.shapeMismatch msg))
    ∧ (∀ (m : MexDir) (mat : MMat),
      scipy_mmread m.matrixLines = .ok mat →
      (mat.nrows, mat.ncols)
          ≠ ((xen_read_tsv_col m.featuresLines true).length,
             (xen_read_tsv_col m.barcodesLines false).length) →
      ∃ msg, Xenium.load_mex_dir m = .error (.shapeMismatch msg)) := by
  constructor
  · intro m mat hok hne
    unfold Visium.load_mex_dir
    rcases hr : read_matrix_market_dense "matrix.mtx" MAX_DENSE_ENTRIES
        m.matrixLines with e | mat2
    · rw [hok] at hr; cases hr
    · rw [hok] at hr
      injection hr with hr
      subst hr
      show ∃ msg, (if (mat.nrows, mat.ncols)
          ≠ ((vis_read_tsv_first_or_second_col m.featuresLines).length,
             (vis_read_tsv_first_col m.barcodesLines).length)
        then _ else _) = Except.error (Err.shapeMismatch msg)
      rw [if_pos hne]
      exact ⟨_, rfl⟩
  · intro m mat hok hne
    unfold Xenium.load_mex_dir
    rcases hr : scipy_mmread m.matrixLines with e | mat2
    · rw [hok] at hr; cases hr
    · rw [hok] at hr
      injection hr with hr
      subst hr
      show ∃ msg, from_spmatrix mat.ncols mat.nrows
          (xen_read_tsv_col m.barcodesLines false)
          (xen_read_tsv_col m.featuresLines true)
          (mat.data.transpose.map (fun r =>
            r.map (fun z => Val.num (mkRat z 1))))
          = Except.error (Err.shapeMismatch msg)
      unfold from_spmatrix
      rw [if_neg (fun hand =>
        hne (by rw [Prod.mk.injEq]; exact ⟨hand.2, hand.1⟩))]
      exact ⟨_, rfl⟩

/-- Witness for C8: a declared 2×1 matrix against three feature names. -/
theorem C8_mex_shape_mismatch_fatal_witness :
    ∃ msg, Visium.load_mex_dir
        ⟨["%%MatrixMarket matrix coordinate integer general", "2 1 1",
          "1 1 7"],
         ["AAAC"], ["f1\tG1", "f2\tG2", "f3\tG3"]⟩
      = .error (.shapeMismatch msg) :=
  C8_mex_shape_mismatch_fatal.1
    ⟨["%%MatrixMarket matrix coordinate integer general", "2 1 1",
      "1 1 7"],
     ["AAAC"], ["f1\tG1", "f2\tG2", "f3\tG3"]⟩
    ⟨2, 1, [[7], [0]]⟩ (by decide) (by decide)

/-! ## 10x HDF5 dense fallback (`xenium.py::_load_10x_h5`) -/

/-- The parsed content of a 10x HDF5 matrix: CSC arrays, shape, and the
decoded feature/barcode name lists (HDF5 byte reading is out of scope). -/
structure H5Matrix where
  data : List ℚ
  indices : List Nat
  indptr : List Nat
  shape : Nat × Nat
  featureNames : List String
  barcodes : List String

/-- One barcode's dense row, from its CSC column slice
(`dense[col, rows] = vals`). -/
def h5_col_row (h : H5Matrix) (col : Nat) : List ℚ :=
  (List.range (h.indptr.getD (col + 1) 0 - h.indptr.getD col 0)).foldl
    (fun acc k =>
      acc.set (h.indices.getD (h.indptr.getD col 0 + k) 0)
        (h.data.getD (h.indptr.getD col 0 + k) 0))
    (List.replicate h.shape.1 0)

/-- The barcodes × features dense grid (also the value grid of the
sparse path after `mat.T`). -/
def h5_dense (h : H5Matrix) : List (List Val) :=
  (List.range h.shape.2).map (fun col =>
    (h5_col_row h col).map Val.num)

namespace Xenium

/-- `_load_10x_h5`: the scipy path builds the sparse frame through the
pandas constructor; the scipy-less fallback is guarded by the hard
50,000,000-element ceiling before building a dense matrix. -/
def load_10x_h5 (scipyAvailable : Bool) (pathName : String)
    (h : H5Matrix) : Except Err Frame :=
  if scipyAvailable then
    from_spmatrix h.shape.2 h.shape.1 h.barcodes h.featureNames (h5_dense h)
  else if h.shape.1 * h.shape.2 > 50000000 then
    .error (.denseTooLarge
      ("Xenium: reading cell_feature_matrix.h5 without scipy would require "
        ++ "allocating a huge dense matrix. "
        ++ "Install the optional dependency 'scipy' for sparse loading, "
        ++ "or export a smaller matrix. "
        ++ "(features=" ++ toString h.shape.1
        ++ ", barcodes=" ++ toString h.shape.2
        ++ ", file=" ++ pathName ++ ")"))
  else
    .ok ⟨some "cell_id", h.barcodes.map Val.str,
      h.featureNames.map Val.str, h5_dense h⟩

end Xenium

theorem readEntries_no_dense (pathName : String) (nr nc : Nat) :
    ∀ (fuel : Nat) (lines : List String) (mat : List (List Int)) (msg : String),
      readEntries pathName nr nc fuel lines mat
        ≠ .error (.denseTooLarge msg) := by
  intro fuel
  induction fuel with
  | zero => intro lines mat msg h; cases h
  | succ n ih =>
      intro lines mat msg h
      rcases lines with _ | ⟨row, rest⟩
      · unfold readEntries at h
        cases h
      · unfold readEntries at h
        split at h
        · split at h
          · split at h
            · cases h
            · exact ih _ _ _ h
          · cases h
        · cases h



set_option maxRecDepth 20000 in
/-- C9 counterexample: the over-ceiling failure message of the Visium
dense Matrix-Market reader names the shape and scipy but not the
20,000,000-element ceiling, so "the failure message states the ceiling
value" fails. -/
theorem C9_counterexample_ceiling_not_in_message :
    read_matrix_market_dense "matrix.mtx" MAX_DENSE_ENTRIES
        ["%%MatrixMarket matrix coordinate integer general", "20000001 1 0"]
      = .error (.denseTooLarge
        ("Visium: matrix is too large to load densely without scipy. "
          ++ "shape=(20000001,1) entries=20000001. "
          ++ "Install 'scipy' for sparse loading or export a smaller panel. "
          ++ "(file: matrix.mtx)"))
      ∧ strContains
        ("Visium: matrix is too large to load densely without scipy. "
          ++ "shape=(20000001,1) entries=20000001. "
          ++ "Install 'scipy' for sparse loading or export a smaller panel. "
          ++ "(file: matrix.mtx)") "20000000" = false
      ∧ strContains
        ("Visium: matrix is too large to load densely without scipy. "
          ++ "shape=(20000001,1) entries=20000001. "
          ++ "Install 'scipy' for sparse loading or export a smaller panel. "
          ++ "(file: matrix.mtx)") "scipy" = true := by
  refine ⟨by decide, by decide, by decide⟩

set_option maxRecDepth 8000 in
/-- C9 amended.  Whenever a dense load would exceed the hard element
ceiling, the loader fails before building the matrix, with a message
stating the actual shape and suggesting the scipy sparse path (the
ceiling's numeric value itself is not in the message); at or below the
ceiling the dense load proceeds. -/
theorem C9_amended_dense_ceiling :
    (∀ (pathName : String) (lines : List String) (nr nc ne : Nat)
        (rest : List String),
      mm_header_dims pathName lines = .ok (nr, nc, ne, rest) →
      (nr * nc > MAX_DENSE_ENTRIES →
        read_matrix_market_dense pathName MAX_DENSE_ENTRIES lines
          = .error (.denseTooLarge
            ("Visium: matrix is too large to load densely without scipy. "
              ++ "shape=(" ++ toString nr ++ "," ++ toString nc
              ++ ") entries=" ++ toString (nr * nc) ++ ". "
              ++ "Install 'scipy' for sparse loading or export a smaller panel. "
              ++ "(file: " ++ pathName ++ ")")))
        ∧ (nr * nc ≤ MAX_DENSE_ENTRIES →
          ∀ msg, read_matrix_market_dense pathName MAX_DENSE_ENTRIES lines
            ≠ .error (.denseTooLarge msg)))
    ∧ (∀ (pathName : String) (h : H5Matrix),
      (h.shape.1 * h.shape.2 > 50000000 →
        Xenium.load_10x_h5 false pathName h
          = .error (.denseTooLarge
            ("Xenium: reading cell_feature_matrix.h5 without scipy would require "
              ++ "allocating a huge dense matrix. "
              ++ "Install the optional dependency 'scipy' for sparse loading, "
              ++ "or export a smaller matrix. "
              ++ "(features=" ++ toString h.shape.1
              ++ ", barcodes=" ++ toString h.shape.2
              ++ ", file=" ++ pathName ++ ")")))
        ∧ (h.shape.1 * h.shape.2 ≤ 50000000 →
          ∃ f, Xenium.load_10x_h5 false pathName h = .ok f)) := by
  constructor
  · intro pathName lines nr nc ne rest hdr
    constructor
    · intro hover
      unfold read_matrix_market_dense
      rw [hdr]
      show (if nr * nc > MAX_DENSE_ENTRIES then _ else _) = _
      rw [if_pos hover]
    · intro hunder msg h
      revert h
      unfold read_matrix_market_dense
      rw [hdr]
      show (if nr * nc > MAX_DENSE_ENTRIES then _ else _)
          = Except.error (Err.denseTooLarge msg) → False
      rw [if_neg (by omega)]
      rcases hre : readEntries pathName nr nc ne rest
          (List.replicate nr (List.replicate nc 0)) with e | mat
      · intro h
        have h2 : (Except.error e : Except Err MMat)
            = Except.error (Err.denseTooLarge msg) := h
        injection h2 with h3
        subst h3
        exact readEntries_no_dense pathName nr nc ne rest
          (List.replicate nr (List.replicate nc 0)) msg hre
      · intro h
        have h2 : (Except.ok (MMat.mk nr nc mat) : Except Err MMat)
            = Except.error (Err.denseTooLarge msg) := h
        cases h2
  · intro pathName h
    constructor
    · intro hover
      unfold Xenium.load_10x_h5
      rw [if_neg Bool.false_ne_true, if_pos hover]
    · intro hunder
      unfold Xenium.load_10x_h5
      rw [if_neg Bool.false_ne_true, if_neg (by omega)]
      exact ⟨_, rfl⟩

/-- Witness for the amended C9: a 2×3 header stays under the ceiling and
proceeds; a 20000001×1 header fails with the documented message. -/
theorem C9_amended_dense_ceiling_witness :
    (20000001 * 1 > MAX_DENSE_ENTRIES →
      read_matrix_market_dense "matrix.mtx" MAX_DENSE_ENTRIES
          ["%%MatrixMarket matrix coordinate integer general",
           "20000001 1 0"]
        = .error (.denseTooLarge
          ("Visium: matrix is too large to load densely without scipy. "
            ++ "shape=(" ++ toString 20000001 ++ "," ++ toString 1
            ++ ") entries=" ++ toString (20000001 * 1) ++ ". "
            ++ "Install 'scipy' for sparse loading or export a smaller panel. "
            ++ "(file: matrix.mtx)")))
      ∧ (20000001 * 1 ≤ MAX_DENSE_ENTRIES →
        ∀ msg, read_matrix_market_dense "matrix.mtx" MAX_DENSE_ENTRIES
            ["%%MatrixMarket matrix coordinate integer general",
             "20000001 1 0"]
          ≠ .error (.denseTooLarge msg)) :=
  C9_amended_dense_ceiling.1 "matrix.mtx"
    ["%%MatrixMarket matrix coordinate integer general", "20000001 1 0"]
    20000001 1 0 [] (by decide)

/-! ## Cell-metadata loaders and remaining expression loaders -/

/-- The shared in-place update sequence of the cell-metadata loaders:
string-cast id at construction, numeric coercion of x/y, string cast of
cell_type. -/
def cell_metadata_chain (ids xs ys cts : List Val) : Table :=
  mapColVals (coerce_numeric ⟨cellCols, rows4 ids xs ys cts⟩ ["x", "y"])
    "cell_type" astypeString

namespace Cosmx

/-- `cosmx.py::_load_cell_metadata`. -/
def load_cell_metadata (t0 : Table) : Except Err Table :=
  match firstPresent (lowerMapColumns (standardizeCols t0).cols)
      ["cell_id", "cellid", "cell", "cell_id_int"] with
  | none =>
      .error (.missingColumns
        ("CosMx: cell metadata CSV missing required cell id column. "
          ++ "Found columns: " ++ toString (standardizeCols t0).cols))
  | some cc =>
      .ok (cell_metadata_chain
        (((standardizeCols t0).col cc).map astypeString)
        (match firstPresent (lowerMapColumns (standardizeCols t0).cols)
            ["x", "centerx", "centroid_x", "centroidx", "x_center"] with
         | some xc => (standardizeCols t0).col xc
         | none => List.replicate (standardizeCols t0).nrows .na)
        (match firstPresent (lowerMapColumns (standardizeCols t0).cols)
            ["y", "centery", "centroid_y", "centroidy", "y_center"] with
         | some yc => (standardizeCols t0).col yc
         | none => List.replicate (standardizeCols t0).nrows .na)
        (match firstPresent (lowerMapColumns (standardizeCols t0).cols)
            ["cell_type", "celltype", "cell_class", "classification",
             "cluster", "annotation", "celltype_label"] with
         | some tc => (standardizeCols t0).col tc
         | none => List.replicate (standardizeCols t0).nrows .na))

end Cosmx

namespace Merscope

/-- `merscope.py::_load_cell_metadata`. -/
def load_cell_metadata (t0 : Table) : Except Err Table :=
  match firstPresent (lowerMapColumns (standardizeCols t0).cols)
      ["entityid", "entity_id", "cell_id", "cellid", "cell", "barcode"] with
  | none =>
      .error (.missingColumns
        ("MERSCOPE: cell metadata table missing required entity/cell id "
          ++ "column. Found columns: " ++ toString (standardizeCols t0).cols))
  | some cc =>
      .ok (cell_metadata_chain
        (((standardizeCols t0).col cc).map astypeString)
        (match firstPresent (lowerMapColumns (standardizeCols t0).cols)
            ["center_x", "x", "x_centroid", "centroid_x", "centerx"] with
         | some xc => (standardizeCols t0).col xc
         | none => List.replicate (standardizeCols t0).nrows .na)
        (match firstPresent (lowerMapColumns (standardizeCols t0).cols)
            ["center_y", "y", "y_centroid", "centroid_y", "centery"] with
         | some yc => (standardizeCols t0).col yc
         | none => List.replicate (standardizeCols t0).nrows .na)
        (match firstPresent (lowerMapColumns (standardizeCols t0).cols)
            ["cell_type", "celltype", "annotation", "cluster", "label",
             "cell_class"] with
         | some tc => (standardizeCols t0).col tc
         | none => List.replicate (standardizeCols t0).nrows .na))

/-- `df.set_index(idx_col)` of the MERSCOPE wide expression loader:
index renamed cell_id and string-cast, remaining columns string labels,
every value numerically coerced.  (The index column always exists:
it is either resolved from the table or the first column.) -/
def set_index_named (t : Table) (c : String) : Frame :=
  match t.cols.findIdx? (fun n => n == c) with
  | some i =>
      ⟨some "cell_id",
       (t.rows.map (fun r => r.getD i .na)).map astypeString,
       (t.cols.eraseIdx i).map Val.str,
       t.rows.map (fun r => (r.eraseIdx i).map toNumeric)⟩
  | none => ⟨some "cell_id", [], [], []⟩

/-- `merscope.py::_load_expression_matrix`: fixed-index wide matrix. -/
def load_expression_matrix (t0 : Table) : Except Err Frame :=
  if (standardizeCols t0).cols.length < 2 then
    .error (.tooFewColumns "MERSCOPE: expression matrix has too few columns")
  else
    .ok (set_index_named (standardizeCols t0)
      ((firstPresent (lowerMapColumns (standardizeCols t0).cols)
          ["entityid", "entity_id", "cell_id", "cellid", "cell"]).getD
        ((standardizeCols t0).cols.headD "")))

end Merscope

namespace Xenium

/-- `xenium.py::_load_cell_metadata`. -/
def load_cell_metadata (t0 : Table) : Except Err Table :=
  match firstPresent (lowerMapColumns (standardizeCols t0).cols)
      ["cell_id", "cellid", "cell", "barcode"] with
  | none =>
      .error (.missingColumns
        ("Xenium: cell metadata table missing required cell id column. "
          ++ "Found columns: " ++ toString (standardizeCols t0).cols))
  | some cc =>
      .ok (cell_metadata_chain
        (((standardizeCols t0).col cc).map astypeString)
        (match firstPresent (lowerMapColumns (standardizeCols t0).cols)
            ["x", "x_centroid", "centroid_x", "centerx"] with
         | some xc => (standardizeCols t0).col xc
         | none => List.replicate (standardizeCols t0).nrows .na)
        (match firstPresent (lowerMapColumns (standardizeCols t0).cols)
            ["y", "y_centroid", "centroid_y", "centery"] with
         | some yc => (standardizeCols t0).col yc
         | none => List.replicate (standardizeCols t0).nrows .na)
        (match firstPresent (lowerMapColumns (standardizeCols t0).cols)
            ["cell_type", "celltype", "annotation", "cluster", "graphclust",
             "kmeans", "label"] with
         | some tc => (standardizeCols t0).col tc
         | none => List.replicate (standardizeCols t0).nrows .na))

end Xenium

/-- A discovered expression artifact: a 10x HDF5 matrix, a MEX directory,
or a CSV-like table. -/
inductive ExprSource where
  | h5 (h : H5Matrix)
  | mexDir (m : MexDir)
  | table (t : Table)

namespace Xenium

/-- `xenium.py::_load_expression_matrix` dispatch. -/
def load_expression_matrix (scipyAvailable : Bool) :
    ExprSource → Except Err Frame
  | .mexDir m => load_mex_dir m
  | .h5 h => load_10x_h5 scipyAvailable "cell_feature_matrix.h5" h
  | .table t => load_expression_table_csv t

end Xenium

namespace Visium

/-- `visium.py::_load_tissue_positions`.  A six-column table whose first
column is not "barcode" is re-read headerless: the header line becomes
the first data row under the canonical Space Ranger column names. -/
def load_tissue_positions (t0 : Table) : Except Err Table :=
  match (if t0.cols.length == 6
        && pyLower (pyStrip (t0.cols.headD "")) ≠ "barcode" then
      Table.mk
        ["barcode", "in_tissue", "array_row", "array_col",
         "pxl_row_in_fullres", "pxl_col_in_fullres"]
        ((t0.cols.map Val.str) :: t0.rows)
    else t0) with
  | df0 =>
      match ((standardizeCols df0).cols.reverse).find?
            (fun c => pyLower c == "barcode"),
          ((standardizeCols df0).cols.reverse).find?
            (fun c => pyLower c == "pxl_row_in_fullres"),
          ((standardizeCols df0).cols.reverse).find?
            (fun c => pyLower c == "pxl_col_in_fullres") with
      | some bc, some pr, some pc =>
          .ok ⟨cellCols,
            rows4 (((standardizeCols df0).col bc).map astypePyStr)
              (((standardizeCols df0).col pc).map toNumeric)
              (((standardizeCols df0).col pr).map toNumeric)
              (List.replicate (standardizeCols df0).nrows .na)⟩
      | _, _, _ =>
          .error (.missingColumns
            ("Visium: tissue_positions missing required columns"))

/-- `visium.py::_load_expression_matrix` dispatch: MEX directories are
supported, H5 and anything else is rejected. -/
def load_expression_matrix : ExprSource → Except Err Frame
  | .mexDir m => load_mex_dir m
  | .h5 _ =>
      .error (.unsupported
        ("Visium: reading *.h5 matrices requires optional dependencies "
          ++ "(e.g., h5py/scipy). Provide a filtered_feature_bc_matrix/ "
          ++ "MEX directory instead."))
  | .table _ =>
      .error (.unsupported "Visium: unsupported expression matrix path")

end Visium

namespace VisiumHd

/-- `visium_hd.py::_load_10x_h5`: scipy sparse load through the pandas
constructor. -/
def load_10x_h5 (h : H5Matrix) : Except Err Frame :=
  from_spmatrix h.shape.2 h.shape.1 h.barcodes h.featureNames (h5_dense h)

/-- `visium_hd.py::_load_mex_dir`: scipy `mmread` plus the pandas
constructor. -/
def load_mex_dir (m : MexDir) : Except Err Frame :=
  match scipy_mmread m.matrixLines with
  | .error e => .error e
  | .ok mat =>
      from_spmatrix mat.ncols mat.nrows
        (xen_read_tsv_col m.barcodesLines false)
        (xen_read_tsv_col m.featuresLines true)
        (mat.data.transpose.map (fun r =>
          r.map (fun z => Val.num (mkRat z 1))))

/-- `visium_hd.py::_load_expression_matrix` dispatch. -/
def load_expression_matrix : ExprSource → Except Err Frame
  | .mexDir m => load_mex_dir m
  | .h5 h => load_10x_h5 h
  | .table t => load_expression_table_csv t

end VisiumHd

/-! ## Platform adapters -/

/-- `_validate_transcripts`: the canonical four transcript columns must
be present (the NaN counts are advisory only). -/
def validate_transcripts (platform : String) (df : Table) :
    Except Err Unit :=
  match transcriptCols.find? (fun c => !(df.cols.contains c)) with
  | some c =>
      .error (.missingColumns
        (platform ++ ": transcript_data missing required column: " ++ c))
  | none => .ok ()

/-- `_validate_cell_metadata`. -/
def validate_cell_metadata (platform : String) (df : Table) :
    Except Err Unit :=
  match cellCols.find? (fun c => !(df.cols.contains c)) with
  | some c =>
      .error (.missingColumns
        (platform ++ ": cell_metadata missing required column: " ++ c))
  | none => .ok ()

/-- `_validate_expression`: advisory-only, never fatal. -/
def validate_expression (_f : Frame) : Except Err Unit := .ok ()

/-- The canonical structure an adapter returns.  The metadata dictionary
(JSON sidecars, file map, detection stamp) is bookkeeping orthogonal to
the table shapes and is not modelled. -/
structure SEDataset where
  platform : String
  transcript_data : Table
  cell_metadata : Table
  expression_matrix : Frame
deriving DecidableEq, Repr

/-- Discovery result for the CosMx/MERSCOPE adapters: the parsed content
of each discovered file, or `none` when no file was found for the role. -/
structure TCECandidates where
  transcript : Option Table
  cell_metadata : Option Table
  expression : Option Table

/-- Discovery result for Xenium (the expression artifact may be H5, MEX
or CSV). -/
structure XeniumCandidates where
  transcript : Option Table
  cell_metadata : Option Table
  expression : Option ExprSource

/-- Discovery result for Visium / Visium HD. -/
structure VisiumCandidates where
  positions : Option Table
  expression : Option ExprSource

/-- The shared tail of every adapter: propagate the first load failure,
then run the three validators, then assemble the returned dataset.
(In the Python sources this is the straight-line statement sequence of
each `parse_*`; an exception at any load aborts before the next load.) -/
def assemble (platform tag : String) (tr cm : Except Err Table)
    (ex : Except Err Frame) : Except Err SEDataset :=
  match tr with
  | .error e => .error e
  | .ok transcript_df =>
      match cm with
      | .error e => .error e
      | .ok cell_df =>
          match ex with
          | .error e => .error e
          | .ok expr_df =>
              match validate_transcripts platform transcript_df with
              | .error e => .error e
              | .ok _ =>
                  match validate_cell_metadata platform cell_df with
                  | .error e => .error e
                  | .ok _ =>
                      match validate_expression expr_df with
                      | .error e => .error e
                      | .ok _ =>
                          .ok ⟨tag, transcript_df, cell_df, expr_df⟩

/-- The per-role guard of every adapter: a missing artifact keeps the
canonical empty default, a found one is loaded (and may fail). -/
def roleOrEmpty {σ α : Type} (dflt : α) (f : σ → Except Err α) :
    Option σ → Except Err α
  | none => .ok dflt
  | some t => f t

/-- `cosmx.py::parse_cosmx` after discovery: load each present role
(an absent role keeps the canonical empty table/matrix), then validate. -/
def parse_cosmx (c : TCECandidates) : Except Err SEDataset :=
  assemble "CosMx" "cosmx"
    (roleOrEmpty empty_transcript_df Cosmx.load_transcripts c.transcript)
    (roleOrEmpty empty_cell_metadata_df Cosmx.load_cell_metadata
      c.cell_metadata)
    (roleOrEmpty Frame.empty Cosmx.load_expression_matrix c.expression)

/-- `merscope.py::parse_merscope` after discovery. -/
def parse_merscope (c : TCECandidates) : Except Err SEDataset :=
  assemble "MERSCOPE" "merscope"
    (roleOrEmpty empty_transcript_df Merscope.load_transcripts c.transcript)
    (roleOrEmpty empty_cell_metadata_df Merscope.load_cell_metadata
      c.cell_metadata)
    (roleOrEmpty Frame.empty Merscope.load_expression_matrix c.expression)

/-- `xenium.py::parse_xenium` after discovery (`scipyAvailable` selects
the sparse H5 path versus the guarded dense fallback). -/
def parse_xenium (scipyAvailable : Bool) (c : XeniumCandidates) :
    Except Err SEDataset :=
  assemble "Xenium" "xenium"
    (roleOrEmpty empty_transcript_df Xenium.load_transcripts c.transcript)
    (roleOrEmpty empty_cell_metadata_df Xenium.load_cell_metadata
      c.cell_metadata)
    (roleOrEmpty Frame.empty (Xenium.load_expression_matrix scipyAvailable)
      c.expression)

/-- `visium.py::parse_visium` after discovery: architecturally
transcript-less, the transcript table is always the canonical empty one. -/
def parse_visium (c : VisiumCandidates) : Except Err SEDataset :=
  assemble "Visium" "visium" (Except.ok empty_transcript_df)
    (roleOrEmpty empty_cell_metadata_df Visium.load_tissue_positions
      c.positions)
    (roleOrEmpty Frame.empty Visium.load_expression_matrix c.expression)

/-- `visium_hd.py::parse_visium_hd` after root and file discovery. -/
def parse_visium_hd (c : VisiumCandidates) : Except Err SEDataset :=
  assemble "Visium HD" "visium_hd" (Except.ok empty_transcript_df)
    (roleOrEmpty empty_cell_metadata_df VisiumHd.load_positions c.positions)
    (roleOrEmpty Frame.empty VisiumHd.load_expression_matrix c.expression)

/-- Inverting a successful `assemble`: each of the three inputs was a
successful load of exactly the corresponding field of the result. -/
theorem assemble_ok_inv (p tag : String) (A B : Except Err Table)
    (C : Except Err Frame) (d : SEDataset)
    (h : assemble p tag A B C = .ok d) :
    A = .ok d.transcript_data ∧ B = .ok d.cell_metadata ∧
      C = .ok d.expression_matrix := by
  rcases A with e | t
  · exact Except.noConfusion h
  rcases B with e | cdf
  · exact Except.noConfusion h
  rcases C with e | edf
  · exact Except.noConfusion h
  have h1 : (match validate_transcripts p t with
      | .error e => (Except.error e : Except Err SEDataset)
      | .ok _ =>
          match validate_cell_metadata p cdf with
          | .error e => .error e
          | .ok _ =>
              match validate_expression edf with
              | .error e => .error e
              | .ok _ => .ok ⟨tag, t, cdf, edf⟩) = Except.ok d := h
  rcases h4 : validate_transcripts p t with e | u
  · rw [h4] at h1
    exact Except.noConfusion h1
  rw [h4] at h1
  rcases h5 : validate_cell_metadata p cdf with e | u2
  · rw [h5] at h1
    exact Except.noConfusion h1
  rw [h5] at h1
  have h7 : Except.ok (SEDataset.mk tag t cdf edf) = Except.ok d := h1
  injection h7 with h8
  cases h8
  exact ⟨rfl, rfl, rfl⟩

theorem roleOrEmpty_ok_none {σ α : Type} (dflt : α) (f : σ → Except Err α)
    (o : Option σ) (y : α) (h : roleOrEmpty dflt f o = .ok y)
    (ho : o = none) : y = dflt := by
  subst ho
  have h2 : Except.ok dflt = Except.ok y := h
  injection h2 with h3
  exact h3.symm

/-- C1: for every platform adapter, a role with no discovered file is
non-fatal: the adapter succeeds with the canonical empty table (or empty
expression matrix) for that role.  Concretely: with nothing discovered,
each adapter returns the all-empty dataset; and whenever an adapter call
succeeds, any role whose candidate was `none` comes back as the canonical
empty table/matrix (so a fatal missing-column error can only arise from a
file that was actually found). -/
theorem C1_missing_role_empty :
    (parse_cosmx ⟨none, none, none⟩ =
        Except.ok ⟨"cosmx", empty_transcript_df, empty_cell_metadata_df,
          Frame.empty⟩) ∧
    (parse_merscope ⟨none, none, none⟩ =
        Except.ok ⟨"merscope", empty_transcript_df, empty_cell_metadata_df,
          Frame.empty⟩) ∧
    (∀ b : Bool, parse_xenium b ⟨none, none, none⟩ =
        Except.ok ⟨"xenium", empty_transcript_df, empty_cell_metadata_df,
          Frame.empty⟩) ∧
    (parse_visium ⟨none, none⟩ =
        Except.ok ⟨"visium", empty_transcript_df, empty_cell_metadata_df,
          Frame.empty⟩) ∧
    (parse_visium_hd ⟨none, none⟩ =
        Except.ok ⟨"visium_hd", empty_transcript_df, empty_cell_metadata_df,
          Frame.empty⟩) ∧
    (∀ c d, parse_cosmx c = .ok d →
      (c.transcript = none → d.transcript_data = empty_transcript_df) ∧
      (c.cell_metadata = none → d.cell_metadata = empty_cell_metadata_df) ∧
      (c.expression = none → d.expression_matrix = Frame.empty)) ∧
    (∀ c d, parse_merscope c = .ok d →
      (c.transcript = none → d.transcript_data = empty_transcript_df) ∧
      (c.cell_metadata = none → d.cell_metadata = empty_cell_metadata_df) ∧
      (c.expression = none → d.expression_matrix = Frame.empty)) ∧
    (∀ (b : Bool) c d, parse_xenium b c = .ok d →
      (c.transcript = none → d.transcript_data = empty_transcript_df) ∧
      (c.cell_metadata = none → d.cell_metadata = empty_cell_metadata_df) ∧
      (c.expression = none → d.expression_matrix = Frame.empty)) ∧
    (∀ c d, parse_visium c = .ok d →
      d.transcript_data = empty_transcript_df ∧
      (c.positions = none → d.cell_metadata = empty_cell_metadata_df) ∧
      (c.expression = none → d.expression_matrix = Frame.empty)) ∧
    (∀ c d, parse_visium_hd c = .ok d →
      d.transcript_data = empty_transcript_df ∧
      (c.positions = none → d.cell_metadata = empty_cell_metadata_df) ∧
      (c.expression = none → d.expression_matrix = Frame.empty)) := by
  refine ⟨by decide, by decide, by intro b; cases b <;> decide, by decide, by decide,
    ?_, ?_, ?_, ?_, ?_⟩
  · intro c d hok
    have h := assemble_ok_inv "CosMx" "cosmx" _ _ _ d hok
    exact ⟨fun hr => roleOrEmpty_ok_none _ _ _ _ h.1 hr,
      fun hr => roleOrEmpty_ok_none _ _ _ _ h.2.1 hr,
      fun hr => roleOrEmpty_ok_none _ _ _ _ h.2.2 hr⟩
  · intro c d hok
    have h := assemble_ok_inv "MERSCOPE" "merscope" _ _ _ d hok
    exact ⟨fun hr => roleOrEmpty_ok_none _ _ _ _ h.1 hr,
      fun hr => roleOrEmpty_ok_none _ _ _ _ h.2.1 hr,
      fun hr => roleOrEmpty_ok_none _ _ _ _ h.2.2 hr⟩
  · intro b c d hok
    have h := assemble_ok_inv "Xenium" "xenium" _ _ _ d hok
    exact ⟨fun hr => roleOrEmpty_ok_none _ _ _ _ h.1 hr,
      fun hr => roleOrEmpty_ok_none _ _ _ _ h.2.1 hr,
      fun hr => roleOrEmpty_ok_none _ _ _ _ h.2.2 hr⟩
  · intro c d hok
    have h := assemble_ok_inv "Visium" "visium" _ _ _ d hok
    have h1 : Except.ok empty_transcript_df =
        Except.ok d.transcript_data := h.1
    refine ⟨?_, fun hr => roleOrEmpty_ok_none _ _ _ _ h.2.1 hr,
      fun hr => roleOrEmpty_ok_none _ _ _ _ h.2.2 hr⟩
    injection h1 with h3
    exact h3.symm
  · intro c d hok
    have h := assemble_ok_inv "Visium HD" "visium_hd" _ _ _ d hok
    have h1 : Except.ok empty_transcript_df =
        Except.ok d.transcript_data := h.1
    refine ⟨?_, fun hr => roleOrEmpty_ok_none _ _ _ _ h.2.1 hr,
      fun hr => roleOrEmpty_ok_none _ _ _ _ h.2.2 hr⟩
    injection h1 with h3
    exact h3.symm

theorem C1_missing_role_empty_witness :
    (SEDataset.mk "cosmx" empty_transcript_df empty_cell_metadata_df
        Frame.empty).cell_metadata = empty_cell_metadata_df ∧
    (SEDataset.mk "visium" empty_transcript_df empty_cell_metadata_df
        Frame.empty).transcript_data = empty_transcript_df :=
  ⟨(C1_missing_role_empty.2.2.2.2.2.1 ⟨none, none, none⟩
      ⟨"cosmx", empty_transcript_df, empty_cell_metadata_df, Frame.empty⟩
      (by decide)).2.1 rfl,
    (C1_missing_role_empty.2.2.2.2.2.2.2.2.1 ⟨none, none⟩
      ⟨"visium", empty_transcript_df, empty_cell_metadata_df, Frame.empty⟩
      (by decide)).1⟩

end SE
